import Mathlib

/-!
Verification development for the google-smart-home-action-go repository.

We shallow-embed the core of the library in Lean:
  * a JSON value model (`Json`), with Go maps (`map[string]interface{}`)
    represented as association lists with no duplicate keys;
  * the `DeviceState` recorder and its custom JSON codec (trait.go);
  * the `Device` profile, its trait-registration builders and its codec
    (devices.go);
  * the `Command` tagged-union codec (command.go, the revision with the
    challenge field and the generic whole-envelope fallback);
  * the HTTP fulfillment dispatcher `GoogleFulfillmentHandler` (handler.go),
    with the access-token validator and the device provider as opaque
    function parameters and the HTTP exchange as explicit data.
-/

namespace SmartHome

/-- JSON value. Numbers are modelled as rationals; a Go
`map[string]interface{}` becomes an `obj` association list whose keys are
assumed distinct (Go maps cannot hold duplicate keys). -/
inductive Json where
  | null
  | bool (b : Bool)
  | num (q : Rat)
  | str (s : String)
  | arr (elts : List Json)
  | obj (fields : List (String × Json))

/-! ### Association-list operations modelling Go map operations -/

/-- Keys of an association list. -/
def keysOf (l : List (String × Json)) : List String := l.map Prod.fst

/-- Go map lookup `v, ok := m[k]`. Keys are distinct in every list that
models a Go map, so first-match lookup is exact. -/
def lookupKV : List (String × Json) → String → Option Json
  | [], _ => none
  | p :: rest, k => if p.1 = k then some p.2 else lookupKV rest k

/-- Go map assignment `m[k] = v`: overwrite in place if present, else add. -/
def insertKV : List (String × Json) → String → Json → List (String × Json)
  | [], k, v => [(k, v)]
  | p :: rest, k, v => if p.1 = k then (k, v) :: rest else p :: insertKV rest k v

/-- Go `delete(m, k)`. -/
def eraseKV (l : List (String × Json)) (k : String) : List (String × Json) :=
  l.filter (fun p => p.1 ≠ k)


/-! ### String helpers mirroring the Go standard library -/

/-- `strings.Contains`. -/
def strContains (s pat : String) : Bool :=
  (List.range (s.data.length + 1)).any (fun i => pat.data.isPrefixOf (s.data.drop i))

/-- `strings.ToLower` restricted to ASCII, which is all the handler compares. -/
def strToLower (s : String) : String := String.mk (s.data.map Char.toLower)

/-- Field list of `strings.Split(s, sep)` for a one-character separator. -/
def splitFields (sep : Char) : List Char → List String
  | [] => [""]
  | c :: rest =>
    let r := splitFields sep rest
    if c = sep then "" :: r
    else
      match r with
      | [] => [String.mk [c]]
      | f :: fs => String.mk (c :: f.data) :: fs

/-- `strings.Split(s, sep)` for a one-character separator. -/
def stringsSplit (s : String) (sep : Char) : List String := splitFields sep s.data

/-- Lexicographic order on character lists (Go compares strings bytewise;
on the ASCII data exchanged here that coincides with this code-point
order). -/
def charListLt : List Char → List Char → Bool
  | [], [] => false
  | [], _ :: _ => true
  | _ :: _, [] => false
  | a :: as, b :: bs => if a < b then true else if a = b then charListLt as bs else false

/-- Lexicographic order on strings. -/
def strLt (a b : String) : Bool := charListLt a.data b.data

/-! ### DeviceState (trait.go) -/

/-- `DeviceState` from trait.go: the online flag, the status string, and the
sparse trait-state map `State map[string]interface{}`.  The Go nil map and
the empty map are both modelled as `[]`. -/
structure DeviceState where
  Online : Bool
  Status : String
  State : List (String × Json)

/-- `NewDeviceState` from trait.go. -/
def NewDeviceState (online : Bool) : DeviceState :=
  { Online := online, Status := "", State := [] }

/-- `DeviceState.RecordBrightness`. -/
def DeviceState.RecordBrightness (ds : DeviceState) (brightness : Int) : DeviceState :=
  { ds with State := insertKV ds.State "brightness" (.num brightness) }

/-- `DeviceState.RecordColorTemperature`. -/
def DeviceState.RecordColorTemperature (ds : DeviceState) (temperatureK : Int) : DeviceState :=
  { ds with State := insertKV ds.State "color" (.obj [("temperatureK", .num temperatureK)]) }

/-- `DeviceState.RecordColorRGB`. -/
def DeviceState.RecordColorRGB (ds : DeviceState) (spectrumRgb : Int) : DeviceState :=
  { ds with State := insertKV ds.State "color" (.obj [("spectrumRgb", .num spectrumRgb)]) }

/-- `DeviceState.RecordColorHSV`. -/
def DeviceState.RecordColorHSV (ds : DeviceState) (hue saturation value : Rat) : DeviceState :=
  let hsv : Json := .obj
    [("hue", .num hue), ("saturation", .num saturation), ("value", .num value)]
  { ds with State := insertKV ds.State "color" (.obj [("spectrumHsv", hsv)]) }

/-- `DeviceState.RecordInput`. -/
def DeviceState.RecordInput (ds : DeviceState) (input : String) : DeviceState :=
  { ds with State := insertKV ds.State "input" (.str input) }

/-- `DeviceState.RecordOnOff`. -/
def DeviceState.RecordOnOff (ds : DeviceState) (isOn : Bool) : DeviceState :=
  { ds with State := insertKV ds.State "on" (.bool isOn) }

/-- `DeviceState.RecordVolume`. -/
def DeviceState.RecordVolume (ds : DeviceState) (volume : Int) (isMuted : Bool) : DeviceState :=
  { ds with State := insertKV (insertKV ds.State "currentVolume" (.num volume))
                       "isMuted" (.bool isMuted) }

/-- `DeviceState.MarshalJSON` from trait.go: build a fresh map, always set
`online`, set `status` only when non-empty, then overlay every trait-state
key. -/
def DeviceState.marshalJSON (ds : DeviceState) : Json :=
  let payload : List (String × Json) := insertKV [] "online" (.bool ds.Online)
  let payload :=
    if ds.Status.length > 0 then insertKV payload "status" (.str ds.Status) else payload
  .obj (ds.State.foldl (fun m p => insertKV m p.1 p.2) payload)

/-- Outcome of running `DeviceState.UnmarshalJSON`: Go can return normally,
return an error, or panic on the unchecked type assertions. -/
inductive DSResult where
  | ok (ds : DeviceState)
  | err
  | panics

/-- `DeviceState.UnmarshalJSON` from trait.go: parse into a generic map, pop
`online` (via the unchecked assertion `online.(bool)`), pop `status` (via
`status.(string)`), and keep every remaining key in `State`.  A non-object,
non-null input is a `json.Unmarshal` error; `null` leaves the receiver's
zero value in place. -/
def DeviceState.unmarshalJSON (j : Json) : DSResult :=
  match j with
  | .null => .ok { Online := false, Status := "", State := [] }
  | .obj payload =>
    match lookupKV payload "online" with
    | some (.bool b) =>
      let payload1 := eraseKV payload "online"
      (match lookupKV payload1 "status" with
       | some (.str s) =>
         .ok { Online := b, Status := s, State := eraseKV payload1 "status" }
       | some _ => .panics
       | none => .ok { Online := b, Status := "", State := payload1 })
    | some _ => .panics
    | none =>
      (match lookupKV payload "status" with
       | some (.str s) =>
         .ok { Online := false, Status := s, State := eraseKV payload "status" }
       | some _ => .panics
       | none => .ok { Online := false, Status := "", State := payload })
  | _ => .err

/-! ### Device profile and trait registration (devices.go) -/

/-- `DeviceName`. -/
structure DeviceName where
  DefaultNames : List String
  Name : String
  Nicknames : List String

/-- `DeviceInfo`. -/
structure DeviceInfo where
  Manufacturer : String
  Model : String
  HwVersion : String
  SwVersion : String

/-- `OtherDeviceID`. -/
structure OtherDeviceID where
  AgentID : String
  DeviceID : String

/-- `DeviceInputName`. -/
structure DeviceInputName where
  LanguageCode : String
  Synonyms : List String

/-- `DeviceInput`. -/
structure DeviceInput where
  Key : String
  Names : List DeviceInputName

/-- `Device` from devices.go.  The Go field `Traits map[string]bool` is a
set (every registration writes `true`); we represent it canonically as a
strictly sorted list of trait names.  `Attributes` and `CustomData` are Go
maps, kept as association lists with distinct keys; the Go nil map and the
empty map are both `[]`. -/
structure Device where
  ID : String
  Typ : String
  Traits : List String
  Name : DeviceName
  WillReportState : Bool
  RoomHint : String
  Attributes : List (String × Json)
  DeviceInfo : DeviceInfo
  OtherDeviceIDs : List OtherDeviceID
  CustomData : List (String × Json)

/-- `NewDevice` from devices.go. -/
def NewDevice (id typ : String) : Device :=
  { ID := id, Typ := typ, Traits := [], Name := ⟨[], "", []⟩, WillReportState := false,
    RoomHint := "", Attributes := [], DeviceInfo := ⟨"", "", "", ""⟩,
    OtherDeviceIDs := [], CustomData := [] }

/-- Go map insertion `d.Traits[name] = true` on the canonical sorted
representation of the trait set. -/
def insertSortedStr (k : String) : List String → List String
  | [] => [k]
  | t :: rest =>
    if strLt k t then k :: t :: rest
    else if k = t then t :: rest
    else t :: insertSortedStr k rest

/-- `Device.AddBrightnessTrait`. -/
def Device.AddBrightnessTrait (d : Device) (onlyCommand : Bool) : Device :=
  let d := { d with Traits := insertSortedStr "action.devices.traits.Brightness" d.Traits }
  if onlyCommand then
    { d with Attributes := insertKV d.Attributes "commandOnlyBrightness" (.bool true) }
  else d

/-- `Device.AddColourTrait`. -/
def Device.AddColourTrait (d : Device) (model : String) (onlyCommand : Bool) : Device :=
  let d := { d with Traits := insertSortedStr "action.devices.traits.ColorSetting" d.Traits }
  let d :=
    if onlyCommand then
      { d with Attributes := insertKV d.Attributes "commandOnlyColorSetting" (.bool true) }
    else d
  { d with Attributes := insertKV d.Attributes "colorModel" (.str model) }

/-- The JSON value for the `colorTemperatureRange` attribute
(`map[string]int`, whose two keys serialize in sorted order). -/
def colorTemperatureRangeJson (minTempK maxTempK : Int) : Json :=
  .obj [("temperatureMaxK", .num maxTempK), ("temperatureMinK", .num minTempK)]

/-- `Device.AddColourTemperatureTrait`. -/
def Device.AddColourTemperatureTrait (d : Device) (minTempK maxTempK : Int)
    (onlyCommand : Bool) : Device :=
  let d := { d with Traits := insertSortedStr "action.devices.traits.ColorSetting" d.Traits }
  let d :=
    { d with Attributes := insertKV d.Attributes "commandOnlyColorSetting" (.bool onlyCommand) }
  { d with Attributes :=
      insertKV d.Attributes "colorTemperatureRange" (colorTemperatureRangeJson minTempK maxTempK) }

/-- JSON projection of a `DeviceInput` (struct field order). -/
def DeviceInput.toJson (i : DeviceInput) : Json :=
  .obj [("key", .str i.Key),
        ("names", .arr (i.Names.map (fun n =>
          .obj [("lang", .str n.LanguageCode),
                ("name_synonym", .arr (n.Synonyms.map .str))])))]

/-- `Device.AddInputSelectorTrait`. -/
def Device.AddInputSelectorTrait (d : Device) (availableInputs : List DeviceInput)
    (ordered : Bool) : Device :=
  let d := { d with Traits := insertSortedStr "action.devices.traits.InputSelector" d.Traits }
  let inputsJson : Json := .arr (availableInputs.map DeviceInput.toJson)
  let d := { d with Attributes := insertKV d.Attributes "availableInputs" inputsJson }
  { d with Attributes := insertKV d.Attributes "orderedInputs" (.bool ordered) }

/-- `Device.AddOnOffTrait`. -/
def Device.AddOnOffTrait (d : Device) (onlyCommand onlyQuery : Bool) : Device :=
  let d := { d with Traits := insertSortedStr "action.devices.traits.OnOff" d.Traits }
  let d :=
    if onlyCommand then
      { d with Attributes := insertKV d.Attributes "commandOnlyOnOff" (.bool true) }
    else d
  if onlyQuery then
    { d with Attributes := insertKV d.Attributes "queryOnlyOnOff" (.bool true) }
  else d

/-- `Device.AddVolumeTrait`. -/
def Device.AddVolumeTrait (d : Device) (maxLevel : Int) (canMute : Bool)
    (onlyCommand : Bool) : Device :=
  let d := { d with Traits := insertSortedStr "action.devices.traits.Volume" d.Traits }
  let d :=
    if onlyCommand then
      { d with Attributes := insertKV d.Attributes "commandOnlyVolume" (.bool true) }
    else d
  let d := { d with Attributes := insertKV d.Attributes "volumeMaxLevel" (.num maxLevel) }
  { d with Attributes := insertKV d.Attributes "volumeCanMuteAndUnmute" (.bool canMute) }

/-- One trait-registration call, with its arguments. -/
inductive TraitOp where
  | brightness (onlyCommand : Bool)
  | colour (model : String) (onlyCommand : Bool)
  | colourTemperature (minTempK maxTempK : Int) (onlyCommand : Bool)
  | inputSelector (availableInputs : List DeviceInput) (ordered : Bool)
  | onOff (onlyCommand onlyQuery : Bool)
  | volume (maxLevel : Int) (canMute onlyCommand : Bool)

/-- Apply a trait-registration call to a device. -/
def Device.applyTraitOp (d : Device) : TraitOp → Device
  | .brightness oc => d.AddBrightnessTrait oc
  | .colour model oc => d.AddColourTrait model oc
  | .colourTemperature mn mx oc => d.AddColourTemperatureTrait mn mx oc
  | .inputSelector inputs ordered => d.AddInputSelectorTrait inputs ordered
  | .onOff oc oq => d.AddOnOffTrait oc oq
  | .volume mx cm oc => d.AddVolumeTrait mx cm oc

/-- The trait name registered by each operation. -/
def TraitOp.traitName : TraitOp → String
  | .brightness _ => "action.devices.traits.Brightness"
  | .colour _ _ => "action.devices.traits.ColorSetting"
  | .colourTemperature _ _ _ => "action.devices.traits.ColorSetting"
  | .inputSelector _ _ => "action.devices.traits.InputSelector"
  | .onOff _ _ => "action.devices.traits.OnOff"
  | .volume _ _ _ => "action.devices.traits.Volume"

/-- The attribute key/value writes performed by each operation, in program
order. -/
def TraitOp.attrWrites : TraitOp → List (String × Json)
  | .brightness oc => if oc then [("commandOnlyBrightness", .bool true)] else []
  | .colour model oc =>
    (if oc then [("commandOnlyColorSetting", .bool true)] else [])
      ++ [("colorModel", .str model)]
  | .colourTemperature mn mx oc =>
    [("commandOnlyColorSetting", .bool oc),
     ("colorTemperatureRange", colorTemperatureRangeJson mn mx)]
  | .inputSelector inputs ordered =>
    [("availableInputs", .arr (inputs.map DeviceInput.toJson)),
     ("orderedInputs", .bool ordered)]
  | .onOff oc oq =>
    (if oc then [("commandOnlyOnOff", .bool true)] else [])
      ++ (if oq then [("queryOnlyOnOff", .bool true)] else [])
  | .volume mx cm oc =>
    (if oc then [("commandOnlyVolume", .bool true)] else [])
      ++ [("volumeMaxLevel", .num mx), ("volumeCanMuteAndUnmute", .bool cm)]

/-- `deviceRaw` from devices.go: the wire shape of a device profile. -/
structure deviceRaw where
  ID : String
  Typ : String
  Traits : List String
  Name : DeviceName
  WillReportState : Bool
  RoomHint : String
  Attributes : List (String × Json)
  DeviceInfo : DeviceInfo
  OtherDeviceIDs : List OtherDeviceID
  CustomData : List (String × Json)

/-- Ascending insertion into a sorted list. -/
def insOrdered (k : String) : List String → List String
  | [] => [k]
  | t :: rest => if strLt k t then k :: t :: rest else t :: insOrdered k rest

/-- `sort.Strings` on the trait names collected from the map. -/
def sortStrings (l : List String) : List String :=
  l.foldr insOrdered []

/-- `Device.MarshalJSON` from devices.go, to the wire struct: copy every
field, projecting the trait set into an explicitly sorted list. -/
def Device.marshalJSON (d : Device) : deviceRaw :=
  { ID := d.ID, Typ := d.Typ, Traits := sortStrings d.Traits,
    Name := ⟨d.Name.DefaultNames, d.Name.Name, d.Name.Nicknames⟩,
    WillReportState := d.WillReportState, RoomHint := d.RoomHint,
    Attributes := d.Attributes,
    DeviceInfo := ⟨d.DeviceInfo.Manufacturer, d.DeviceInfo.Model,
                   d.DeviceInfo.HwVersion, d.DeviceInfo.SwVersion⟩,
    OtherDeviceIDs := d.OtherDeviceIDs.map (fun o => ⟨o.AgentID, o.DeviceID⟩),
    CustomData := d.CustomData }

/-- `Device.UnmarshalJSON` from devices.go, from the wire struct on a fresh
receiver: rebuild the trait set from the wire list and default a missing
`customData` to the empty map (`nil` and `{}` coincide in our model). -/
def Device.unmarshalJSON (dr : deviceRaw) : Device :=
  { ID := dr.ID, Typ := dr.Typ,
    Traits := dr.Traits.foldl (fun s t => insertSortedStr t s) [],
    Name := ⟨dr.Name.DefaultNames, dr.Name.Name, dr.Name.Nicknames⟩,
    WillReportState := dr.WillReportState, RoomHint := dr.RoomHint,
    Attributes := dr.Attributes,
    DeviceInfo := ⟨dr.DeviceInfo.Manufacturer, dr.DeviceInfo.Model,
                   dr.DeviceInfo.HwVersion, dr.DeviceInfo.SwVersion⟩,
    OtherDeviceIDs := dr.OtherDeviceIDs.map (fun o => ⟨o.AgentID, o.DeviceID⟩),
    CustomData := dr.CustomData }

/-! ### Command union codec (command.go)

Decoders below model `encoding/json` unmarshalling of a parsed `Json`
value into the corresponding Go struct: an absent key or a JSON `null`
leaves the field at its zero value, a key of the wrong JSON kind is an
error, unknown keys are ignored (Go additionally matches keys
case-insensitively, which none of the wire shapes rely on), and a non-object
non-null value for a struct is an error. -/

/-- Decode a Go `int` field. -/
def decodeIntField (v : Option Json) : Except Unit Int :=
  match v with
  | none => .ok 0
  | some .null => .ok 0
  | some (.num q) => if q.den = 1 then .ok q.num else .error ()
  | some _ => .error ()

/-- Decode a Go `float` field. -/
def decodeFloatField (v : Option Json) : Except Unit Rat :=
  match v with
  | none => .ok 0
  | some .null => .ok 0
  | some (.num q) => .ok q
  | some _ => .error ()

/-- Decode a Go `bool` field. -/
def decodeBoolField (v : Option Json) : Except Unit Bool :=
  match v with
  | none => .ok false
  | some .null => .ok false
  | some (.bool b) => .ok b
  | some _ => .error ()

/-- Decode a Go `string` field. -/
def decodeStringField (v : Option Json) : Except Unit String :=
  match v with
  | none => .ok ""
  | some .null => .ok ""
  | some (.str s) => .ok s
  | some _ => .error ()

/-- Decode a Go `*string` field (`omitempty` pointer). -/
def decodeOptStringField (v : Option Json) : Except Unit (Option String) :=
  match v with
  | none => .ok none
  | some .null => .ok none
  | some (.str s) => .ok (some s)
  | some _ => .error ()

/-- Decode a Go `*float32` field (`omitempty` pointer). -/
def decodeOptFloatField (v : Option Json) : Except Unit (Option Rat) :=
  match v with
  | none => .ok none
  | some .null => .ok none
  | some (.num q) => .ok (some q)
  | some _ => .error ()

/-- Decode a Go `map[string]interface{}` field. -/
def decodeMapField (v : Option Json) : Except Unit (List (String × Json)) :=
  match v with
  | none => .ok []
  | some .null => .ok []
  | some (.obj l) => .ok l
  | some _ => .error ()

/-- Decode a Go `map[string]string` field. -/
def decodeStrMapField (v : Option Json) : Except Unit (List (String × String)) :=
  match v with
  | none => .ok []
  | some .null => .ok []
  | some (.obj l) =>
    l.foldr
      (fun p acc =>
        match p.2 with
        | .str s => do
          let rest ← acc
          .ok ((p.1, s) :: rest)
        | _ => .error ())
      (.ok [])
  | some _ => .error ()

/-- `CommandGeneric`. -/
structure CommandGeneric where
  Command : String
  Params : List (String × Json)
  Challenge : List (String × String)

/-- `CommandBrightnessAbsolute`. -/
structure CommandBrightnessAbsolute where
  Brightness : Int

/-- `CommandBrightnessRelative`. -/
structure CommandBrightnessRelative where
  RelativePercent : Int
  RelativeWeight : Int

/-- The `spectrumHSV` sub-struct of `CommandColorAbsolute`. -/
structure ColorAbsHSV where
  Hue : Rat
  Saturation : Rat
  Value : Rat

/-- The `color` sub-struct of `CommandColorAbsolute`. -/
structure ColorAbsColor where
  Name : String
  Temperature : Int
  RGB : Int
  HSV : ColorAbsHSV

/-- `CommandColorAbsolute`. -/
structure CommandColorAbsolute where
  Color : ColorAbsColor

/-- `CommandOnOff`. -/
structure CommandOnOff where
  On : Bool

/-- `CommandMute`. -/
structure CommandMute where
  Mute : Bool

/-- `CommandSetVolume`. -/
structure CommandSetVolume where
  Level : Int

/-- `CommandSetVolumeRelative`. -/
structure CommandSetVolumeRelative where
  Amount : Int

/-- `CommandSetInput`. -/
structure CommandSetInput where
  NewInput : String

/-- `CommandNextInput` (no fields). -/
structure CommandNextInput where

/-- `CommandPreviousInput` (no fields). -/
structure CommandPreviousInput where

/-- `CommandSetFanSpeed`. -/
structure CommandSetFanSpeed where
  FanSpeed : Option String
  FanSpeedPercent : Option Rat

/-- `CommandThermostatTemperatureSetpoint`. -/
structure CommandThermostatTemperatureSetpoint where
  SetpointCelcius : Rat

/-- `CommandOpenClose`. -/
structure CommandOpenClose where
  OpenPercent : Int
  Direction : Option String

/-- `CommandOpenCloseRelative`. -/
structure CommandOpenCloseRelative where
  OpenRelativePercent : Int
  Direction : Option String

/-- `Command` from command.go: the discriminant name, the optional opaque
challenge, and one pointer per well-known payload shape plus the generic
fallback. -/
structure Command where
  Name : String
  Challenge : Option (List (String × Json))
  Generic : Option CommandGeneric
  BrightnessAbsolute : Option CommandBrightnessAbsolute
  BrightnessRelative : Option CommandBrightnessRelative
  ColorAbsolute : Option CommandColorAbsolute
  OnOff : Option CommandOnOff
  Mute : Option CommandMute
  SetVolume : Option CommandSetVolume
  AdjustVolume : Option CommandSetVolumeRelative
  SetInput : Option CommandSetInput
  NextInput : Option CommandNextInput
  PreviousInput : Option CommandPreviousInput
  SetFanSpeed : Option CommandSetFanSpeed
  ThermostatTemperatureSetpoint : Option CommandThermostatTemperatureSetpoint
  OpenClose : Option CommandOpenClose
  OpenCloseRelative : Option CommandOpenCloseRelative

/-- The zero `Command`, as allocated before `UnmarshalJSON` runs. -/
def emptyCommand : Command :=
  { Name := "", Challenge := none, Generic := none, BrightnessAbsolute := none,
    BrightnessRelative := none, ColorAbsolute := none, OnOff := none, Mute := none,
    SetVolume := none, AdjustVolume := none, SetInput := none, NextInput := none,
    PreviousInput := none, SetFanSpeed := none, ThermostatTemperatureSetpoint := none,
    OpenClose := none, OpenCloseRelative := none }

/-! Per-payload JSON encodings (Go struct marshalling, fields in declaration
order, `omitempty` pointers dropped when nil) and decodings. -/

def encBrightnessAbsolute (p : CommandBrightnessAbsolute) : Json :=
  .obj [("brightness", .num p.Brightness)]

def decBrightnessAbsolute (j : Json) : Except Unit CommandBrightnessAbsolute :=
  match j with
  | .null => .ok ⟨0⟩
  | .obj l => do
    let b ← decodeIntField (lookupKV l "brightness")
    .ok ⟨b⟩
  | _ => .error ()

def encBrightnessRelative (p : CommandBrightnessRelative) : Json :=
  .obj [("brightnessRelativePercent", .num p.RelativePercent),
        ("brightnessRelativeWeight", .num p.RelativeWeight)]

def decBrightnessRelative (j : Json) : Except Unit CommandBrightnessRelative :=
  match j with
  | .null => .ok ⟨0, 0⟩
  | .obj l => do
    let p1 ← decodeIntField (lookupKV l "brightnessRelativePercent")
    let p2 ← decodeIntField (lookupKV l "brightnessRelativeWeight")
    .ok ⟨p1, p2⟩
  | _ => .error ()

def encColorAbsolute (p : CommandColorAbsolute) : Json :=
  .obj [("color", .obj
    [("name", .str p.Color.Name),
     ("temperature", .num p.Color.Temperature),
     ("spectrumRGB", .num p.Color.RGB),
     ("spectrumHSV", .obj
       [("hue", .num p.Color.HSV.Hue),
        ("saturation", .num p.Color.HSV.Saturation),
        ("value", .num p.Color.HSV.Value)])])]

def decodeColorAbsHSVField (v : Option Json) : Except Unit ColorAbsHSV :=
  match v with
  | none => .ok ⟨0, 0, 0⟩
  | some .null => .ok ⟨0, 0, 0⟩
  | some (.obj l) => do
    let h ← decodeFloatField (lookupKV l "hue")
    let s ← decodeFloatField (lookupKV l "saturation")
    let v ← decodeFloatField (lookupKV l "value")
    .ok ⟨h, s, v⟩
  | some _ => .error ()

def decodeColorAbsColorField (v : Option Json) : Except Unit ColorAbsColor :=
  match v with
  | none => .ok ⟨"", 0, 0, ⟨0, 0, 0⟩⟩
  | some .null => .ok ⟨"", 0, 0, ⟨0, 0, 0⟩⟩
  | some (.obj l) => do
    let n ← decodeStringField (lookupKV l "name")
    let t ← decodeIntField (lookupKV l "temperature")
    let r ← decodeIntField (lookupKV l "spectrumRGB")
    let hsv ← decodeColorAbsHSVField (lookupKV l "spectrumHSV")
    .ok ⟨n, t, r, hsv⟩
  | some _ => .error ()

def decColorAbsolute (j : Json) : Except Unit CommandColorAbsolute :=
  match j with
  | .null => .ok ⟨⟨"", 0, 0, ⟨0, 0, 0⟩⟩⟩
  | .obj l => do
    let c ← decodeColorAbsColorField (lookupKV l "color")
    .ok ⟨c⟩
  | _ => .error ()

def encOnOff (p : CommandOnOff) : Json := .obj [("on", .bool p.On)]

def decOnOff (j : Json) : Except Unit CommandOnOff :=
  match j with
  | .null => .ok ⟨false⟩
  | .obj l => do
    let b ← decodeBoolField (lookupKV l "on")
    .ok ⟨b⟩
  | _ => .error ()

def encMute (p : CommandMute) : Json := .obj [("mute", .bool p.Mute)]

def decMute (j : Json) : Except Unit CommandMute :=
  match j with
  | .null => .ok ⟨false⟩
  | .obj l => do
    let b ← decodeBoolField (lookupKV l "mute")
    .ok ⟨b⟩
  | _ => .error ()

def encSetVolume (p : CommandSetVolume) : Json := .obj [("volumeLevel", .num p.Level)]

def decSetVolume (j : Json) : Except Unit CommandSetVolume :=
  match j with
  | .null => .ok ⟨0⟩
  | .obj l => do
    let n ← decodeIntField (lookupKV l "volumeLevel")
    .ok ⟨n⟩
  | _ => .error ()

def encSetVolumeRelative (p : CommandSetVolumeRelative) : Json :=
  .obj [("relativeSteps", .num p.Amount)]

def decSetVolumeRelative (j : Json) : Except Unit CommandSetVolumeRelative :=
  match j with
  | .null => .ok ⟨0⟩
  | .obj l => do
    let n ← decodeIntField (lookupKV l "relativeSteps")
    .ok ⟨n⟩
  | _ => .error ()

def encSetInput (p : CommandSetInput) : Json := .obj [("newInput", .str p.NewInput)]

def decSetInput (j : Json) : Except Unit CommandSetInput :=
  match j with
  | .null => .ok ⟨""⟩
  | .obj l => do
    let s ← decodeStringField (lookupKV l "newInput")
    .ok ⟨s⟩
  | _ => .error ()

def encNextInput (_ : CommandNextInput) : Json := .obj []

def decNextInput (j : Json) : Except Unit CommandNextInput :=
  match j with
  | .null => .ok ⟨⟩
  | .obj _ => .ok ⟨⟩
  | _ => .error ()

def encPreviousInput (_ : CommandPreviousInput) : Json := .obj []

def decPreviousInput (j : Json) : Except Unit CommandPreviousInput :=
  match j with
  | .null => .ok ⟨⟩
  | .obj _ => .ok ⟨⟩
  | _ => .error ()

def encSetFanSpeed (p : CommandSetFanSpeed) : Json :=
  .obj ((match p.FanSpeed with
         | some s => [("fanSpeed", Json.str s)]
         | none => [])
     ++ (match p.FanSpeedPercent with
         | some q => [("fanSpeedPercent", Json.num q)]
         | none => []))

def decSetFanSpeed (j : Json) : Except Unit CommandSetFanSpeed :=
  match j with
  | .null => .ok ⟨none, none⟩
  | .obj l => do
    let fs ← decodeOptStringField (lookupKV l "fanSpeed")
    let fp ← decodeOptFloatField (lookupKV l "fanSpeedPercent")
    .ok ⟨fs, fp⟩
  | _ => .error ()

def encThermostatTemperatureSetpoint (p : CommandThermostatTemperatureSetpoint) : Json :=
  .obj [("thermostatTemperatureSetpoint", .num p.SetpointCelcius)]

def decThermostatTemperatureSetpoint (j : Json) :
    Except Unit CommandThermostatTemperatureSetpoint :=
  match j with
  | .null => .ok ⟨0⟩
  | .obj l => do
    let q ← decodeFloatField (lookupKV l "thermostatTemperatureSetpoint")
    .ok ⟨q⟩
  | _ => .error ()

def encOpenClose (p : CommandOpenClose) : Json :=
  .obj ([("openPercent", Json.num p.OpenPercent)]
     ++ (match p.Direction with
         | some s => [("openDirection", Json.str s)]
         | none => []))

def decOpenClose (j : Json) : Except Unit CommandOpenClose :=
  match j with
  | .null => .ok ⟨0, none⟩
  | .obj l => do
    let n ← decodeIntField (lookupKV l "openPercent")
    let dir ← decodeOptStringField (lookupKV l "openDirection")
    .ok ⟨n, dir⟩
  | _ => .error ()

def encOpenCloseRelative (p : CommandOpenCloseRelative) : Json :=
  .obj ([("openRelativePercent", Json.num p.OpenRelativePercent)]
     ++ (match p.Direction with
         | some s => [("openDirection", Json.str s)]
         | none => []))

def decOpenCloseRelative (j : Json) : Except Unit CommandOpenCloseRelative :=
  match j with
  | .null => .ok ⟨0, none⟩
  | .obj l => do
    let n ← decodeIntField (lookupKV l "openRelativePercent")
    let dir ← decodeOptStringField (lookupKV l "openDirection")
    .ok ⟨n, dir⟩
  | _ => .error ()

/-- One well-known payload, tagged by its kind. -/
inductive KnownPayload where
  | brightnessAbsolute (p : CommandBrightnessAbsolute)
  | brightnessRelative (p : CommandBrightnessRelative)
  | colorAbsolute (p : CommandColorAbsolute)
  | onOff (p : CommandOnOff)
  | mute (p : CommandMute)
  | setVolume (p : CommandSetVolume)
  | adjustVolume (p : CommandSetVolumeRelative)
  | setInput (p : CommandSetInput)
  | nextInput (p : CommandNextInput)
  | previousInput (p : CommandPreviousInput)
  | setFanSpeed (p : CommandSetFanSpeed)
  | thermostatTemperatureSetpoint (p : CommandThermostatTemperatureSetpoint)
  | openClose (p : CommandOpenClose)
  | openCloseRelative (p : CommandOpenCloseRelative)

/-- The `UnmarshalJSON` switch: the payload decoder selected per known wire
name (`none` for an unrecognized name). -/
def knownDecoder (name : String) : Option (Json → Except Unit KnownPayload) :=
  match name with
  | "action.devices.commands.BrightnessAbsolute" =>
    some (fun j => (decBrightnessAbsolute j).map .brightnessAbsolute)
  | "action.devices.commands.BrightnessRelative" =>
    some (fun j => (decBrightnessRelative j).map .brightnessRelative)
  | "action.devices.commands.ColorAbsolute" =>
    some (fun j => (decColorAbsolute j).map .colorAbsolute)
  | "action.devices.commands.OnOff" => some (fun j => (decOnOff j).map .onOff)
  | "action.devices.commands.mute" => some (fun j => (decMute j).map .mute)
  | "action.devices.commands.setVolume" => some (fun j => (decSetVolume j).map .setVolume)
  | "action.devices.commands.volumeRelative" =>
    some (fun j => (decSetVolumeRelative j).map .adjustVolume)
  | "action.devices.commands.SetInput" => some (fun j => (decSetInput j).map .setInput)
  | "action.devices.commands.SetFanSpeed" =>
    some (fun j => (decSetFanSpeed j).map .setFanSpeed)
  | "action.devices.commands.ThermostatTemperatureSetpoint" =>
    some (fun j => (decThermostatTemperatureSetpoint j).map .thermostatTemperatureSetpoint)
  | "action.devices.commands.NextInput" => some (fun j => (decNextInput j).map .nextInput)
  | "action.devices.commands.PreviousInput" =>
    some (fun j => (decPreviousInput j).map .previousInput)
  | "action.devices.commands.OpenClose" => some (fun j => (decOpenClose j).map .openClose)
  | "action.devices.commands.OpenCloseRelative" =>
    some (fun j => (decOpenCloseRelative j).map .openCloseRelative)
  | _ => none

/-- Store a decoded payload into the field the `UnmarshalJSON` switch picks. -/
def Command.setPayload (c : Command) : KnownPayload → Command
  | .brightnessAbsolute p => { c with BrightnessAbsolute := some p }
  | .brightnessRelative p => { c with BrightnessRelative := some p }
  | .colorAbsolute p => { c with ColorAbsolute := some p }
  | .onOff p => { c with OnOff := some p }
  | .mute p => { c with Mute := some p }
  | .setVolume p => { c with SetVolume := some p }
  | .adjustVolume p => { c with AdjustVolume := some p }
  | .setInput p => { c with SetInput := some p }
  | .nextInput p => { c with NextInput := some p }
  | .previousInput p => { c with PreviousInput := some p }
  | .setFanSpeed p => { c with SetFanSpeed := some p }
  | .thermostatTemperatureSetpoint p => { c with ThermostatTemperatureSetpoint := some p }
  | .openClose p => { c with OpenClose := some p }
  | .openCloseRelative p => { c with OpenCloseRelative := some p }

/-- Read the payload field the `MarshalJSON` switch picks for a wire name. -/
def Command.getPayload (c : Command) (name : String) : Option KnownPayload :=
  match name with
  | "action.devices.commands.BrightnessAbsolute" => c.BrightnessAbsolute.map .brightnessAbsolute
  | "action.devices.commands.BrightnessRelative" => c.BrightnessRelative.map .brightnessRelative
  | "action.devices.commands.ColorAbsolute" => c.ColorAbsolute.map .colorAbsolute
  | "action.devices.commands.OnOff" => c.OnOff.map .onOff
  | "action.devices.commands.mute" => c.Mute.map .mute
  | "action.devices.commands.setVolume" => c.SetVolume.map .setVolume
  | "action.devices.commands.volumeRelative" => c.AdjustVolume.map .adjustVolume
  | "action.devices.commands.SetInput" => c.SetInput.map .setInput
  | "action.devices.commands.SetFanSpeed" => c.SetFanSpeed.map .setFanSpeed
  | "action.devices.commands.ThermostatTemperatureSetpoint" =>
    c.ThermostatTemperatureSetpoint.map .thermostatTemperatureSetpoint
  | "action.devices.commands.NextInput" => c.NextInput.map .nextInput
  | "action.devices.commands.PreviousInput" => c.PreviousInput.map .previousInput
  | "action.devices.commands.OpenClose" => c.OpenClose.map .openClose
  | "action.devices.commands.OpenCloseRelative" => c.OpenCloseRelative.map .openCloseRelative
  | _ => none

/-- JSON encoding of one payload. -/
def KnownPayload.toJson : KnownPayload → Json
  | .brightnessAbsolute p => encBrightnessAbsolute p
  | .brightnessRelative p => encBrightnessRelative p
  | .colorAbsolute p => encColorAbsolute p
  | .onOff p => encOnOff p
  | .mute p => encMute p
  | .setVolume p => encSetVolume p
  | .adjustVolume p => encSetVolumeRelative p
  | .setInput p => encSetInput p
  | .nextInput p => encNextInput p
  | .previousInput p => encPreviousInput p
  | .setFanSpeed p => encSetFanSpeed p
  | .thermostatTemperatureSetpoint p => encThermostatTemperatureSetpoint p
  | .openClose p => encOpenClose p
  | .openCloseRelative p => encOpenCloseRelative p

/-- `json.Marshal` of a `CommandGeneric` value: its own `command`/`params`
pair with the struct's `challenge` appended only when non-empty
(`omitempty`). -/
def encodeCommandGeneric (g : CommandGeneric) : Json :=
  .obj ([("command", Json.str g.Command), ("params", Json.obj g.Params)]
     ++ (if g.Challenge.isEmpty then []
         else [("challenge", Json.obj (g.Challenge.map (fun p => (p.1, Json.str p.2))))]))

/-- The `challenge` entry of the marshal envelope (`omitempty` map). -/
def challengeEnvelope (c : Option (List (String × Json))) : List (String × Json) :=
  match c with
  | some l => if l.isEmpty then [] else [("challenge", Json.obj l)]
  | none => []

/-- `Command.MarshalJSON` from command.go: select the payload pointer matching
the wire name and emit the `{command, params, challenge?}` envelope; for an
unrecognized name serialize the `Generic` field directly (a nil `Generic`
marshals to JSON `null`). -/
def Command.marshalJSON (c : Command) : Json :=
  match knownDecoder c.Name with
  | some _ =>
    let params : Json :=
      match c.getPayload c.Name with
      | some kp => kp.toJson
      | none => .null
    .obj ([("command", Json.str c.Name), ("params", params)] ++ challengeEnvelope c.Challenge)
  | none =>
    match c.Generic with
    | some g => encodeCommandGeneric g
    | none => .null

/-- `json.Unmarshal` of a whole envelope into `CommandGeneric` (the fallback
branch of `Command.UnmarshalJSON`). -/
def decodeCommandGeneric (j : Json) : Except Unit CommandGeneric :=
  match j with
  | .null => .ok ⟨"", [], []⟩
  | .obj l => do
    let cmd ← decodeStringField (lookupKV l "command")
    let params ← decodeMapField (lookupKV l "params")
    let chal ← decodeStrMapField (lookupKV l "challenge")
    .ok ⟨cmd, params, chal⟩
  | _ => .error ()

/-- The `challenge` field of the top-level envelope struct
(`map[string]interface{}`); `Command.UnmarshalJSON` only assigns it when the
decoded map is non-nil. -/
def decodeChallengeField (v : Option Json) : Except Unit (Option (List (String × Json))) :=
  match v with
  | none => .ok none
  | some .null => .ok none
  | some (.obj l) => .ok (some l)
  | some _ => .error ()

/-- `Command.UnmarshalJSON` from command.go: parse the envelope, branch on the
known-command table, defaulting absent `params` bytes to `null`; an
unrecognized name re-parses the whole envelope into `Generic`.  A `null`
envelope leaves the temporary struct at its zero value, so it takes the
fallback branch with an empty generic. -/
def Command.unmarshalJSON (j : Json) : Except Unit Command :=
  match j with
  | .null => .ok { emptyCommand with Generic := some ⟨"", [], []⟩ }
  | .obj l => do
    let name ← decodeStringField (lookupKV l "command")
    let chal ← decodeChallengeField (lookupKV l "challenge")
    let base := { emptyCommand with Name := name, Challenge := chal }
    match knownDecoder name with
    | some dec => do
      let params := (lookupKV l "params").getD .null
      let kp ← dec params
      .ok (base.setPayload kp)
    | none => do
      let g ← decodeCommandGeneric (.obj l)
      .ok { base with Generic := some g }
  | _ => .error ()

/-! ### Fulfillment dispatcher (handler.go, service.go)

The HTTP exchange is modelled explicitly: the request carries the two
headers the handler reads and the outcome of `json.NewDecoder(...).Decode`
on the body (`none` when the body failed to deserialize); the response
records the status code written, whether the handler set the
`Content-Type: application/json` header, and the structured body it
encoded.  The access-token validator and the device provider are opaque
function parameters, exactly the two collaborator interfaces of the code. -/

/-- `DeviceArg` from service.go. -/
structure DeviceArg where
  ID : String
  CustomData : List (String × Json)

/-- `QueryRequest` as built by the handler (`AgentID` plus device args). -/
structure QueryRequest where
  AgentID : String
  Devices : List DeviceArg

/-- `QueryResponse`: the provider's state map, as an association list. -/
structure QueryResponse where
  States : List (String × DeviceState)

/-- `CommandArg` from service.go. -/
structure CommandArg where
  TargetDevices : List DeviceArg
  Commands : List Command

/-- `ExecuteRequest` as built by the handler. -/
structure ExecuteRequest where
  AgentID : String
  Commands : List CommandArg

/-- `ExecuteResponse` from service.go: one shared updated state, the three
device buckets, with the failure grouping `map[string]struct{Devices []string}`
as an association list keyed by error code.  The association-list embedding
of `DeviceState` conflates Go's nil map and empty map; `UpdatedState.State`
is the one provider-supplied map the handler writes into (handler.go:192),
where nil-ness is observable (assignment to an entry in a nil map panics),
so `UpdatedStateNil` records whether the provider returned a `DeviceState`
whose `State` map is nil (the zero value, as opposed to the non-nil empty
map that `NewDeviceState` allocates).  A nil map has no entries, so a
representable Go value has `UpdatedState.State = []` whenever
`UpdatedStateNil = true`. -/
structure ExecuteResponse where
  UpdatedState : DeviceState
  UpdatedStateNil : Bool
  UpdatedDevices : List String
  OfflineDevices : List String
  FailedDevices : List (String × List String)

/-- `SyncResponse` from service.go. -/
structure SyncResponse where
  Devices : List Device

/-- The `Provider` interface consumed by the handler, with `context.Context`
dropped (it is only passed through) and Go's `(T, error)` as `Except`. -/
structure Provider where
  sync : String → Except Unit SyncResponse
  query : QueryRequest → Except Unit QueryResponse
  execute : ExecuteRequest → Except Unit ExecuteResponse
  disconnect : String → Except Unit Unit

/-- `AccessTokenValidator.Validate`. -/
def AccessTokenValidator : Type := String → Except Unit String

/-- `deviceHandle` from handler.go. -/
structure DeviceHandle where
  ID : String
  CustomData : List (String × Json)

/-- `queryPayload` from handler.go. -/
structure QueryPayload where
  Devices : List DeviceHandle

/-- One element of `executePayload.Commands`. -/
structure ExecCommandGroup where
  Devices : List DeviceHandle
  Execution : List Command

/-- `executePayload` from handler.go. -/
structure ExecutePayload where
  Commands : List ExecCommandGroup

/-- `fulfillmentInput` from handler.go: after `UnmarshalJSON`, `Query` is
populated exactly when the intent was QUERY and `Execute` exactly when it
was EXECUTE. -/
structure FulfillmentInput where
  Intent : String
  Query : Option QueryPayload
  Execute : Option ExecutePayload

/-- `fulfillmentRequest` from handler.go. -/
structure FulfillmentRequest where
  RequestID : String
  Inputs : List FulfillmentInput

/-- The HTTP request surface the handler reads. -/
structure HttpRequest where
  contentType : String
  authHeader : String
  body : Option FulfillmentRequest

/-- `executeRespPayload` from handler.go.  A nil `States` map and an empty
one coincide as `[]`. -/
structure ExecuteRespPayload where
  IDs : List String
  Status : String
  ErrorCode : String
  States : List (String × Json)

/-- The structured body written by the handler. -/
inductive RespBody where
  | text (s : String)
  | syncBody (requestId userID : String) (devices : List Device)
  | queryBody (requestId : String) (devices : List (String × DeviceState))
  | executeBody (requestId : String) (commands : List ExecuteRespPayload)

/-- The observable HTTP response: status code, whether the handler set the
`Content-Type: application/json` header, and the body. -/
structure HttpResponse where
  status : Nat
  contentTypeJson : Bool
  body : RespBody

/-- The EXECUTE response assembly of handler.go: the SUCCESS bucket (with
`online: true` force-written into the shared updated state map) when any
device updated, the OFFLINE bucket when any device is offline, and one ERROR
bucket per failure reason.  The write `States["online"] = true` is modelled
by the total `insertKV`; in the program that write panics when the provider
returned a nil `State` map with devices updated, which is modelled by
`GoogleFulfillmentHandlerRun` via the `UpdatedStateNil` flag — this function
describes the assembled list on the non-panicking runs. -/
def assembleExecuteCommands (er : ExecuteResponse) : List ExecuteRespPayload :=
  (if er.UpdatedDevices.isEmpty then []
   else [{ IDs := er.UpdatedDevices, Status := "SUCCESS", ErrorCode := "",
           States := insertKV er.UpdatedState.State "online" (.bool true) }])
  ++ (if er.OfflineDevices.isEmpty then []
      else [{ IDs := er.OfflineDevices, Status := "OFFLINE", ErrorCode := "", States := [] }])
  ++ er.FailedDevices.map (fun p =>
      { IDs := p.2, Status := "ERROR", ErrorCode := p.1, States := [] })

/-- `Service.GoogleFulfillmentHandler` from handler.go: the validation chain
and the intent dispatch, in source order.  (In the QUERY and EXECUTE branches
the intent-specific payload is guaranteed non-nil by `fulfillmentInput`
decoding, so reading a missing payload as empty is unreachable.)  This
version collapses the nil-map write panic of the EXECUTE branch
(handler.go:192) into the total `assembleExecuteCommands`; that collapse is
immaterial to the SYNC, QUERY and DISCONNECT paths, which never write into a
provider-supplied map.  `GoogleFulfillmentHandlerRun` below models the same
code with that panic made explicit and is the version the EXECUTE-path
claims are stated against. -/
def GoogleFulfillmentHandler (validate : AccessTokenValidator) (provider : Provider)
    (r : HttpRequest) : HttpResponse :=
  if ¬ strContains r.contentType "application/json" then
    ⟨415, false, .text "Request not JSON"⟩
  else if r.authHeader.length < 1 then
    ⟨401, false, .text "Access Token Required"⟩
  else
    let authTokenParts := stringsSplit r.authHeader ' '
    if authTokenParts.length ≠ 2 ∨ strToLower (authTokenParts.headD "") ≠ "bearer" then
      ⟨401, false, .text "Access Token Must Be Bearer"⟩
    else
      match validate (authTokenParts.getD 1 "") with
      | .error _ => ⟨401, false, .text "Access Token Invalid"⟩
      | .ok userID =>
        if userID.length < 1 then ⟨401, false, .text "Access Token Invalid"⟩
        else
          match r.body with
          | none => ⟨400, false, .text "JSON Deserialization Failed"⟩
          | some freq =>
            match freq.Inputs with
            | [input] =>
              if input.Intent = "action.devices.SYNC" then
                match provider.sync userID with
                | .error _ => ⟨503, false, .text "Fail to sync"⟩
                | .ok pSyncResp =>
                  ⟨200, true, .syncBody freq.RequestID userID pSyncResp.Devices⟩
              else if input.Intent = "action.devices.QUERY" then
                let pQueryReq : QueryRequest :=
                  { AgentID := userID,
                    Devices := (input.Query.getD ⟨[]⟩).Devices.map (fun d =>
                      { ID := d.ID, CustomData := d.CustomData }) }
                match provider.query pQueryReq with
                | .error _ => ⟨503, false, .text "Fail to query"⟩
                | .ok pQueryResp =>
                  let devices := pQueryResp.States.map (fun p =>
                    (p.1, { p.2 with Status := "SUCCESS" }))
                  ⟨200, true, .queryBody freq.RequestID devices⟩
              else if input.Intent = "action.devices.EXECUTE" then
                let pExecuteReq : ExecuteRequest :=
                  { AgentID := userID,
                    Commands := (input.Execute.getD ⟨[]⟩).Commands.map (fun g =>
                      { TargetDevices := g.Devices.map (fun d =>
                          { ID := d.ID, CustomData := d.CustomData }),
                        Commands := g.Execution }) }
                match provider.execute pExecuteReq with
                | .error _ => ⟨503, false, .text "Fail to execute"⟩
                | .ok pExecuteResp =>
                  ⟨200, true, .executeBody freq.RequestID (assembleExecuteCommands pExecuteResp)⟩
              else if input.Intent = "action.devices.DISCONNECT" then
                -- provider.Disconnect is called and its result discarded
                ⟨200, false, .text "\x7b\x7d"⟩
              else
                ⟨400, false, .text "Unsupported intent name specified"⟩
            | _ => ⟨400, false, .text "Unsupported number of inputs"⟩

/-- The outcome of running the handler on a request: either an HTTP response
was written, or the program panicked. -/
inductive HandlerResult where
  | resp (r : HttpResponse)
  | panics

/-- `Service.GoogleFulfillmentHandler` with the EXECUTE branch's partiality
modelled: `commandSuccessResp.States = pExecuteResp.UpdatedState.State`
followed by `commandSuccessResp.States["online"] = true` (handler.go:190-192)
panics with "assignment to entry in nil map" whenever the provider returned
devices in the updated bucket together with a nil `State` map.  On every
other path this agrees with `GoogleFulfillmentHandler`. -/
def GoogleFulfillmentHandlerRun (validate : AccessTokenValidator) (provider : Provider)
    (r : HttpRequest) : HandlerResult :=
  if ¬ strContains r.contentType "application/json" then
    .resp ⟨415, false, .text "Request not JSON"⟩
  else if r.authHeader.length < 1 then
    .resp ⟨401, false, .text "Access Token Required"⟩
  else
    let authTokenParts := stringsSplit r.authHeader ' '
    if authTokenParts.length ≠ 2 ∨ strToLower (authTokenParts.headD "") ≠ "bearer" then
      .resp ⟨401, false, .text "Access Token Must Be Bearer"⟩
    else
      match validate (authTokenParts.getD 1 "") with
      | .error _ => .resp ⟨401, false, .text "Access Token Invalid"⟩
      | .ok userID =>
        if userID.length < 1 then .resp ⟨401, false, .text "Access Token Invalid"⟩
        else
          match r.body with
          | none => .resp ⟨400, false, .text "JSON Deserialization Failed"⟩
          | some freq =>
            match freq.Inputs with
            | [input] =>
              if input.Intent = "action.devices.SYNC" then
                match provider.sync userID with
                | .error _ => .resp ⟨503, false, .text "Fail to sync"⟩
                | .ok pSyncResp =>
                  .resp ⟨200, true, .syncBody freq.RequestID userID pSyncResp.Devices⟩
              else if input.Intent = "action.devices.QUERY" then
                let pQueryReq : QueryRequest :=
                  { AgentID := userID,
                    Devices := (input.Query.getD ⟨[]⟩).Devices.map (fun d =>
                      { ID := d.ID, CustomData := d.CustomData }) }
                match provider.query pQueryReq with
                | .error _ => .resp ⟨503, false, .text "Fail to query"⟩
                | .ok pQueryResp =>
                  let devices := pQueryResp.States.map (fun p =>
                    (p.1, { p.2 with Status := "SUCCESS" }))
                  .resp ⟨200, true, .queryBody freq.RequestID devices⟩
              else if input.Intent = "action.devices.EXECUTE" then
                let pExecuteReq : ExecuteRequest :=
                  { AgentID := userID,
                    Commands := (input.Execute.getD ⟨[]⟩).Commands.map (fun g =>
                      { TargetDevices := g.Devices.map (fun d =>
                          { ID := d.ID, CustomData := d.CustomData }),
                        Commands := g.Execution }) }
                match provider.execute pExecuteReq with
                | .error _ => .resp ⟨503, false, .text "Fail to execute"⟩
                | .ok pExecuteResp =>
                  -- handler.go:190-192: inside `if len(UpdatedDevices) > 0`,
                  -- `States["online"] = true` on a nil States map panics
                  if !pExecuteResp.UpdatedDevices.isEmpty && pExecuteResp.UpdatedStateNil then
                    .panics
                  else
                    .resp ⟨200, true,
                      .executeBody freq.RequestID (assembleExecuteCommands pExecuteResp)⟩
              else if input.Intent = "action.devices.DISCONNECT" then
                -- provider.Disconnect is called and its result discarded
                .resp ⟨200, false, .text "\x7b\x7d"⟩
              else
                .resp ⟨400, false, .text "Unsupported intent name specified"⟩
            | _ => .resp ⟨400, false, .text "Unsupported number of inputs"⟩

/-! ### Builders used to quantify over "any sequence of recorder /
trait-registration calls" in the round-trip claims -/

/-- One `Record*` call on a `DeviceState`, with its arguments. -/
inductive RecordOp where
  | brightness (b : Int)
  | colorTemperature (t : Int)
  | colorRGB (s : Int)
  | colorHSV (h s v : Rat)
  | input (i : String)
  | onOff (isOn : Bool)
  | volume (vol : Int) (muted : Bool)

/-- Apply one recorder call. -/
def DeviceState.applyRecord (ds : DeviceState) : RecordOp → DeviceState
  | .brightness b => ds.RecordBrightness b
  | .colorTemperature t => ds.RecordColorTemperature t
  | .colorRGB s => ds.RecordColorRGB s
  | .colorHSV h s v => ds.RecordColorHSV h s v
  | .input i => ds.RecordInput i
  | .onOff o => ds.RecordOnOff o
  | .volume v m => ds.RecordVolume v m

/-- A `DeviceState` built from `NewDeviceState`, a sequence of recorder
calls, and a direct `Status` assignment. -/
def buildDeviceState (online : Bool) (ops : List RecordOp) (status : String) : DeviceState :=
  { ops.foldl DeviceState.applyRecord (NewDeviceState online) with Status := status }

/-- A `Device` built from `NewDevice`, a sequence of trait registrations,
and direct assignments of the remaining public fields. -/
def buildDevice (id typ : String) (ops : List TraitOp) (nm : DeviceName) (room : String)
    (reportState : Bool) (info : DeviceInfo) (others : List OtherDeviceID)
    (cd : List (String × Json)) : Device :=
  let d := ops.foldl Device.applyTraitOp (NewDevice id typ)
  { d with Name := nm, RoomHint := room, WillReportState := reportState,
           DeviceInfo := info, OtherDeviceIDs := others, CustomData := cd }

/-- The last value an operation's attribute-write list assigns to a key. -/
def lastWrite (ws : List (String × Json)) (k : String) : Option Json :=
  ws.foldl (fun acc p => if p.1 = k then some p.2 else acc) none

/-- The wire name whose marshal/unmarshal switch cases select each payload. -/
def KnownPayload.wireName : KnownPayload → String
  | .brightnessAbsolute _ => "action.devices.commands.BrightnessAbsolute"
  | .brightnessRelative _ => "action.devices.commands.BrightnessRelative"
  | .colorAbsolute _ => "action.devices.commands.ColorAbsolute"
  | .onOff _ => "action.devices.commands.OnOff"
  | .mute _ => "action.devices.commands.mute"
  | .setVolume _ => "action.devices.commands.setVolume"
  | .adjustVolume _ => "action.devices.commands.volumeRelative"
  | .setInput _ => "action.devices.commands.SetInput"
  | .nextInput _ => "action.devices.commands.NextInput"
  | .previousInput _ => "action.devices.commands.PreviousInput"
  | .setFanSpeed _ => "action.devices.commands.SetFanSpeed"
  | .thermostatTemperatureSetpoint _ => "action.devices.commands.ThermostatTemperatureSetpoint"
  | .openClose _ => "action.devices.commands.OpenClose"
  | .openCloseRelative _ => "action.devices.commands.OpenCloseRelative"

/-- 1 when the option is populated, 0 otherwise. -/
def countOpt {α : Type} (o : Option α) : Nat :=
  if o.isSome then 1 else 0

/-- How many of the fourteen well-known payload fields are populated. -/
def Command.knownPayloadCount (c : Command) : Nat :=
  countOpt c.BrightnessAbsolute + countOpt c.BrightnessRelative + countOpt c.ColorAbsolute
    + countOpt c.OnOff + countOpt c.Mute + countOpt c.SetVolume + countOpt c.AdjustVolume
    + countOpt c.SetInput + countOpt c.NextInput + countOpt c.PreviousInput
    + countOpt c.SetFanSpeed + countOpt c.ThermostatTemperatureSetpoint
    + countOpt c.OpenClose + countOpt c.OpenCloseRelative

/-! ### Concrete sample collaborators used to exercise the dispatcher -/

/-- A validator accepting exactly the token `tokenOK` (an unknown token
validates to the empty user, as in the repository's test authenticator). -/
def sampleValidator : AccessTokenValidator :=
  fun t => if t = "tokenOK" then .ok "user1" else .ok ""

/-- A provider state whose `Online` flag is `false`. -/
def sampleDeviceStateOffline : DeviceState :=
  { Online := false, Status := "whatever", State := [] }

/-- The EXECUTE outcome of the repository's handler test: one updated
device with state `{on: true}` and one failure grouped under
`deviceTurnedOff`. -/
def sampleExecuteResponse : ExecuteResponse :=
  { UpdatedState := (NewDeviceState true).RecordOnOff true,
    UpdatedStateNil := false,
    UpdatedDevices := ["123"], OfflineDevices := [],
    FailedDevices := [("deviceTurnedOff", ["456"])] }

/-- A provider EXECUTE answer with a device in the updated bucket but a
zero-value `UpdatedState` whose `State` map is nil — nothing forces a
provider to build its state with `NewDeviceState`. -/
def samplePanicExecuteResponse : ExecuteResponse :=
  { UpdatedState := { Online := false, Status := "", State := [] },
    UpdatedStateNil := true,
    UpdatedDevices := ["123"], OfflineDevices := [], FailedDevices := [] }

/-- A provider whose EXECUTE call succeeds with `samplePanicExecuteResponse`. -/
def samplePanicProvider : Provider :=
  { sync := fun _ => .ok { Devices := [] },
    query := fun _ => .ok { States := [("123", sampleDeviceStateOffline)] },
    execute := fun _ => .ok samplePanicExecuteResponse,
    disconnect := fun _ => .ok () }

/-- A provider with fixed answers for all four intents. -/
def sampleProvider : Provider :=
  { sync := fun _ => .ok { Devices := [] },
    query := fun _ => .ok { States := [("123", sampleDeviceStateOffline)] },
    execute := fun _ => .ok sampleExecuteResponse,
    disconnect := fun _ => .ok () }

/-- A well-formed request carrying the given intent and payloads. -/
def sampleHttpRequest (intent : String) (q : Option QueryPayload)
    (e : Option ExecutePayload) : HttpRequest :=
  { contentType := "application/json", authHeader := "Bearer tokenOK",
    body := some { RequestID := "rid",
                   Inputs := [{ Intent := intent, Query := q, Execute := e }] } }

/-! ## Lemmas and claim theorems -/

@[simp] theorem lookupKV_nil (k : String) : lookupKV [] k = none := rfl

theorem lookupKV_cons (p : String × Json) (rest : List (String × Json)) (k : String) :
    lookupKV (p :: rest) k = if p.1 = k then some p.2 else lookupKV rest k := rfl

theorem eraseKV_nil (k : String) : eraseKV [] k = [] := rfl

theorem eraseKV_cons (p : String × Json) (rest : List (String × Json)) (k : String) :
    eraseKV (p :: rest) k = if p.1 = k then eraseKV rest k else p :: eraseKV rest k := by
  by_cases h : p.1 = k
  · simp [eraseKV, h]
  · simp [eraseKV, h]

theorem insertKV_cons (p : String × Json) (rest : List (String × Json)) (k : String)
    (v : Json) :
    insertKV (p :: rest) k v = if p.1 = k then (k, v) :: rest else p :: insertKV rest k v :=
  rfl

theorem lookupKV_insertKV_self (l : List (String × Json)) (k : String) (v : Json) :
    lookupKV (insertKV l k v) k = some v := by
  induction l with
  | nil => simp [insertKV, lookupKV]
  | cons p rest ih =>
    rw [insertKV_cons]
    by_cases h : p.1 = k
    · rw [if_pos h, lookupKV_cons, if_pos rfl]
    · rw [if_neg h, lookupKV_cons, if_neg h, ih]

theorem lookupKV_insertKV_ne (l : List (String × Json)) (k k' : String) (v : Json)
    (h : k ≠ k') : lookupKV (insertKV l k v) k' = lookupKV l k' := by
  induction l with
  | nil =>
    rw [show insertKV [] k v = [(k, v)] from rfl, lookupKV_cons, if_neg h, lookupKV_nil]
  | cons p rest ih =>
    rw [insertKV_cons]
    by_cases hp : p.1 = k
    · rw [if_pos hp, lookupKV_cons, lookupKV_cons, if_neg h]
      by_cases hp' : p.1 = k'
      · exact absurd (hp ▸ hp' : k = k') h
      · rw [if_neg hp']
    · rw [if_neg hp, lookupKV_cons, lookupKV_cons]
      by_cases hp' : p.1 = k'
      · rw [if_pos hp', if_pos hp']
      · rw [if_neg hp', if_neg hp', ih]

theorem lookupKV_eraseKV_self (l : List (String × Json)) (k : String) :
    lookupKV (eraseKV l k) k = none := by
  induction l with
  | nil => rfl
  | cons p rest ih =>
    rw [eraseKV_cons]
    by_cases h : p.1 = k
    · rw [if_pos h]; exact ih
    · rw [if_neg h, lookupKV_cons, if_neg h]; exact ih

theorem lookupKV_eraseKV_ne (l : List (String × Json)) (k k' : String) (h : k' ≠ k) :
    lookupKV (eraseKV l k) k' = lookupKV l k' := by
  induction l with
  | nil => rfl
  | cons p rest ih =>
    rw [eraseKV_cons]
    by_cases hp : p.1 = k
    · have hpk' : p.1 ≠ k' := by rw [hp]; exact fun hh => h hh.symm
      rw [if_pos hp, lookupKV_cons, if_neg hpk', ih]
    · rw [if_neg hp, lookupKV_cons, lookupKV_cons]
      by_cases hp' : p.1 = k'
      · rw [if_pos hp', if_pos hp']
      · rw [if_neg hp', if_neg hp', ih]

/-- Inserting a fresh key appends it at the end. -/
theorem insertKV_of_not_mem (l : List (String × Json)) (k : String) (v : Json)
    (h : k ∉ keysOf l) : insertKV l k v = l ++ [(k, v)] := by
  induction l with
  | nil => rfl
  | cons p rest ih =>
    have hk : p.1 ≠ k := by
      intro hh
      exact h (by simp [keysOf, hh])
    have hrest : k ∉ keysOf rest := by
      intro hh
      exact h (by simp [keysOf] at hh ⊢; exact Or.inr hh)
    simp [insertKV, hk, ih hrest]

theorem keysOf_append (a b : List (String × Json)) :
    keysOf (a ++ b) = keysOf a ++ keysOf b := by
  simp [keysOf]

theorem keysOf_cons (p : String × Json) (rest : List (String × Json)) :
    keysOf (p :: rest) = p.1 :: keysOf rest := rfl

theorem keysOf_insertKV (l : List (String × Json)) (k : String) (v : Json) :
    keysOf (insertKV l k v) = if k ∈ keysOf l then keysOf l else keysOf l ++ [k] := by
  induction l with
  | nil => simp [insertKV, keysOf]
  | cons p rest ih =>
    rw [insertKV_cons]
    by_cases h : p.1 = k
    · rw [if_pos h, keysOf_cons, keysOf_cons, if_pos (by rw [h]; exact List.mem_cons_self _ _)]
      simp [h]
    · rw [if_neg h, keysOf_cons, keysOf_cons, ih]
      by_cases hm : k ∈ keysOf rest
      · rw [if_pos hm, if_pos (List.mem_cons_of_mem _ hm)]
      · have hnot : k ∉ p.1 :: keysOf rest := by
          intro hmem
          rcases List.mem_cons.mp hmem with hmem | hmem
          · exact h hmem.symm
          · exact hm hmem
        rw [if_neg hm, if_neg hnot]
        simp

/-- Folding Go map assignments of a list with fresh, mutually distinct keys
appends that list. -/
theorem foldl_insertKV_append (rest : List (String × Json)) :
    ∀ acc : List (String × Json),
      (∀ k ∈ keysOf rest, k ∉ keysOf acc) → (keysOf rest).Nodup →
      rest.foldl (fun m p => insertKV m p.1 p.2) acc = acc ++ rest := by
  induction rest with
  | nil => intro acc _ _; simp
  | cons p tail ih =>
    intro acc hdisj hnodup
    have hp : p.1 ∉ keysOf acc := hdisj p.1 (by simp [keysOf])
    have hsplit : p.1 ∉ keysOf tail ∧ (keysOf tail).Nodup := by
      rw [keysOf_cons] at hnodup
      exact List.nodup_cons.mp hnodup
    have hnodup' : (keysOf tail).Nodup := hsplit.2
    have hptail : p.1 ∉ keysOf tail := hsplit.1
    have hdisj' : ∀ k ∈ keysOf tail, k ∉ keysOf (acc ++ [p]) := by
      intro k hk
      rw [keysOf_append]
      intro hmem
      rcases List.mem_append.mp hmem with hmem | hmem
      · exact hdisj k (by simp [keysOf] at hk ⊢; exact Or.inr hk) hmem
      · simp [keysOf] at hmem
        exact hptail (hmem ▸ hk)
    calc (p :: tail).foldl (fun m q => insertKV m q.1 q.2) acc
        = tail.foldl (fun m q => insertKV m q.1 q.2) (insertKV acc p.1 p.2) := by
          simp
      _ = tail.foldl (fun m q => insertKV m q.1 q.2) (acc ++ [p]) := by
          rw [insertKV_of_not_mem acc p.1 p.2 hp]
      _ = (acc ++ [p]) ++ tail := ih (acc ++ [p]) hdisj' hnodup'
      _ = acc ++ p :: tail := by simp

theorem lookupKV_append_left (a b : List (String × Json)) (k : String)
    (h : k ∈ keysOf a) : lookupKV (a ++ b) k = lookupKV a k := by
  induction a with
  | nil => simp [keysOf] at h
  | cons p rest ih =>
    by_cases hp : p.1 = k
    · simp [lookupKV, hp]
    · have : k ∈ keysOf rest := by
        simp [keysOf] at h
        rcases h with h | h
        · exact absurd h.symm hp
        · simpa [keysOf]
      simp [lookupKV, hp, ih this]

theorem lookupKV_append_right (a b : List (String × Json)) (k : String)
    (h : k ∉ keysOf a) : lookupKV (a ++ b) k = lookupKV b k := by
  induction a with
  | nil => simp
  | cons p rest ih =>
    have hp : p.1 ≠ k := by
      intro hh; exact h (by simp [keysOf, hh])
    have : k ∉ keysOf rest := by
      intro hh; exact h (by simp [keysOf] at hh ⊢; exact Or.inr hh)
    simp [lookupKV, hp, ih this]

theorem lookupKV_eq_none_of_not_mem (l : List (String × Json)) (k : String)
    (h : k ∉ keysOf l) : lookupKV l k = none := by
  induction l with
  | nil => rfl
  | cons p rest ih =>
    have hp : p.1 ≠ k := by
      intro hh; exact h (by simp [keysOf, hh])
    have : k ∉ keysOf rest := by
      intro hh; exact h (by simp [keysOf] at hh ⊢; exact Or.inr hh)
    simp [lookupKV, hp, ih this]

theorem eraseKV_of_not_mem (l : List (String × Json)) (k : String)
    (h : k ∉ keysOf l) : eraseKV l k = l := by
  induction l with
  | nil => rfl
  | cons p rest ih =>
    have hp : p.1 ≠ k := by
      intro hh; exact h (by simp [keysOf, hh])
    have hr : k ∉ keysOf rest := by
      intro hh; exact h (by simp [keysOf] at hh ⊢; exact Or.inr hh)
    rw [eraseKV_cons, if_neg hp, ih hr]

theorem keysOf_eraseKV (l : List (String × Json)) (k : String) :
    keysOf (eraseKV l k) = (keysOf l).filter (fun x => x ≠ k) := by
  induction l with
  | nil => rfl
  | cons p rest ih =>
    rw [eraseKV_cons]
    by_cases h : p.1 = k
    · rw [if_pos h, keysOf_cons, ih, List.filter_cons]
      simp [h]
    · rw [if_neg h, keysOf_cons, keysOf_cons, ih, List.filter_cons]
      simp [h]

theorem eraseKV_append (a b : List (String × Json)) (k : String) :
    eraseKV (a ++ b) k = eraseKV a k ++ eraseKV b k := by
  simp [eraseKV]

theorem lookupKV_ne_none_of_mem (l : List (String × Json)) (k : String)
    (h : k ∈ keysOf l) : lookupKV l k ≠ none := by
  induction l with
  | nil => simp [keysOf] at h
  | cons p rest ih =>
    by_cases hp : p.1 = k
    · simp [lookupKV, hp]
    · have : k ∈ keysOf rest := by
        rw [keysOf_cons] at h
        rcases List.mem_cons.mp h with h | h
        · exact absurd h.symm hp
        · exact h
      simp [lookupKV, hp, ih this]

/-! ### DeviceState codec lemmas (claims C7, C10) -/

theorem applyRecord_Online (ds : DeviceState) (op : RecordOp) :
    (ds.applyRecord op).Online = ds.Online := by
  cases op <;> rfl

theorem applyRecord_Status (ds : DeviceState) (op : RecordOp) :
    (ds.applyRecord op).Status = ds.Status := by
  cases op <;> rfl

theorem insertKV_goodKeys (st : List (String × Json)) (k : String) (v : Json)
    (hk1 : k ≠ "online") (hk2 : k ≠ "status")
    (h : (keysOf st).Nodup ∧ ∀ x ∈ keysOf st, x ≠ "online" ∧ x ≠ "status") :
    (keysOf (insertKV st k v)).Nodup ∧
      ∀ x ∈ keysOf (insertKV st k v), x ≠ "online" ∧ x ≠ "status" := by
  rw [keysOf_insertKV]
  by_cases hm : k ∈ keysOf st
  · rw [if_pos hm]; exact h
  · rw [if_neg hm]
    constructor
    · rw [List.nodup_append]
      exact ⟨h.1, List.nodup_singleton k, by
        intro x hx hk
        rcases List.mem_singleton.mp hk with rfl
        exact hm hx⟩
    · intro x hx
      rcases List.mem_append.mp hx with hx | hx
      · exact h.2 x hx
      · rcases List.mem_singleton.mp hx with rfl
        exact ⟨hk1, hk2⟩

theorem applyRecord_goodKeys (ds : DeviceState) (op : RecordOp)
    (h : (keysOf ds.State).Nodup ∧ ∀ x ∈ keysOf ds.State, x ≠ "online" ∧ x ≠ "status") :
    (keysOf (ds.applyRecord op).State).Nodup ∧
      ∀ x ∈ keysOf (ds.applyRecord op).State, x ≠ "online" ∧ x ≠ "status" := by
  cases op with
  | brightness b =>
    exact insertKV_goodKeys _ _ _ (by decide) (by decide) h
  | colorTemperature t =>
    exact insertKV_goodKeys _ _ _ (by decide) (by decide) h
  | colorRGB s =>
    exact insertKV_goodKeys _ _ _ (by decide) (by decide) h
  | colorHSV a b c =>
    exact insertKV_goodKeys _ _ _ (by decide) (by decide) h
  | input i =>
    exact insertKV_goodKeys _ _ _ (by decide) (by decide) h
  | onOff o =>
    exact insertKV_goodKeys _ _ _ (by decide) (by decide) h
  | volume v m =>
    exact insertKV_goodKeys _ _ _ (by decide) (by decide)
      (insertKV_goodKeys _ _ _ (by decide) (by decide) h)

theorem foldRecord_goodKeys (ops : List RecordOp) :
    ∀ ds : DeviceState,
      ((keysOf ds.State).Nodup ∧ ∀ x ∈ keysOf ds.State, x ≠ "online" ∧ x ≠ "status") →
      (keysOf (ops.foldl DeviceState.applyRecord ds).State).Nodup ∧
        ∀ x ∈ keysOf (ops.foldl DeviceState.applyRecord ds).State,
          x ≠ "online" ∧ x ≠ "status" := by
  induction ops with
  | nil => intro ds h; exact h
  | cons op rest ih =>
    intro ds h
    exact ih _ (applyRecord_goodKeys ds op h)

theorem foldRecord_Online (ops : List RecordOp) :
    ∀ ds : DeviceState, (ops.foldl DeviceState.applyRecord ds).Online = ds.Online := by
  induction ops with
  | nil => intro ds; rfl
  | cons op rest ih =>
    intro ds
    rw [List.foldl_cons, ih, applyRecord_Online]

/-- Decoding the encoding of a `DeviceState` whose trait-state map has
distinct keys none of which is `online` or `status` reproduces it. -/
theorem marshal_unmarshal_goodState (x : DeviceState)
    (hnodup : (keysOf x.State).Nodup)
    (hk : ∀ k ∈ keysOf x.State, k ≠ "online" ∧ k ≠ "status") :
    DeviceState.unmarshalJSON x.marshalJSON = .ok x := by
  obtain ⟨b, s, st⟩ := x
  simp only at hnodup hk
  have honl : "online" ∉ keysOf st := fun hmem => (hk _ hmem).1 rfl
  have hsta : "status" ∉ keysOf st := fun hmem => (hk _ hmem).2 rfl
  have heon : eraseKV st "online" = st := eraseKV_of_not_mem _ _ honl
  have hlst : lookupKV st "status" = none := lookupKV_eq_none_of_not_mem _ _ hsta
  by_cases hs : s = ""
  · subst hs
    have hlen : ¬ ("" : String).length > 0 := by decide
    have hfold : st.foldl (fun m p => insertKV m p.1 p.2) [("online", Json.bool b)]
        = [("online", Json.bool b)] ++ st := by
      apply foldl_insertKV_append _ _ _ hnodup
      intro k hkmem hmem
      have hke : k = "online" := by simpa [keysOf] using hmem
      exact absurd hke (hk _ hkmem).1
    rw [DeviceState.marshalJSON]
    simp only [if_neg hlen]
    rw [show insertKV [] "online" (Json.bool b) = [("online", Json.bool b)] from rfl, hfold]
    rw [List.singleton_append]
    simp [DeviceState.unmarshalJSON, lookupKV_cons, eraseKV_cons, heon, hlst]
  · have hlen : s.length > 0 := by
      cases hx : s with
      | mk cs =>
        cases cs with
        | nil => exact absurd hx hs
        | cons c cs' => simp [String.length]
    have hpay : insertKV (insertKV [] "online" (Json.bool b)) "status" (Json.str s)
        = [("online", Json.bool b), ("status", Json.str s)] := by
      rw [show insertKV [] "online" (Json.bool b) = [("online", Json.bool b)] from rfl]
      rw [insertKV_cons, if_neg (show ¬ ("online" = "status") by decide)]
      rfl
    have hfold : st.foldl (fun m p => insertKV m p.1 p.2)
        [("online", Json.bool b), ("status", Json.str s)]
        = [("online", Json.bool b), ("status", Json.str s)] ++ st := by
      apply foldl_insertKV_append _ _ _ hnodup
      intro k hkmem hmem
      have hke : k = "online" ∨ k = "status" := by simpa [keysOf] using hmem
      rcases hke with rfl | rfl
      · exact (hk _ hkmem).1 rfl
      · exact (hk _ hkmem).2 rfl
    rw [DeviceState.marshalJSON]
    simp only [if_pos hlen]
    rw [hpay, hfold, List.cons_append, List.singleton_append]
    simp [DeviceState.unmarshalJSON, lookupKV_cons, eraseKV_cons, heon, hlst,
      eraseKV_of_not_mem _ _ hsta]

theorem buildDeviceState_goodKeys (online : Bool) (ops : List RecordOp) (status : String) :
    (keysOf (buildDeviceState online ops status).State).Nodup ∧
      ∀ x ∈ keysOf (buildDeviceState online ops status).State,
        x ≠ "online" ∧ x ≠ "status" := by
  have : (buildDeviceState online ops status).State
      = (ops.foldl DeviceState.applyRecord (NewDeviceState online)).State := rfl
  rw [this]
  exact foldRecord_goodKeys ops (NewDeviceState online) (by constructor <;> simp [NewDeviceState, keysOf])

/-- C7 (amended): `decode(encode(x)) = x` for every recorder-built state,
and `encode(decode(X))` agrees with `X` as a map for every flat object `X`
with a boolean `online`, an optional non-empty string `status`, and
arbitrary further keys.  (An explicit empty-string `status` is dropped by
the encoder, which is the single amendment to the claim.) -/
theorem C7_deviceState_codec_roundtrip :
    (∀ (online : Bool) (ops : List RecordOp) (status : String),
      DeviceState.unmarshalJSON (buildDeviceState online ops status).marshalJSON
        = .ok (buildDeviceState online ops status))
    ∧ (∀ (l : List (String × Json)) (b : Bool),
        (keysOf l).Nodup →
        lookupKV l "online" = some (.bool b) →
        (lookupKV l "status" = none ∨ ∃ s, lookupKV l "status" = some (.str s) ∧ s ≠ "") →
        ∃ ds l', DeviceState.unmarshalJSON (.obj l) = .ok ds ∧
          ds.marshalJSON = .obj l' ∧ ∀ k, lookupKV l' k = lookupKV l k) := by
  constructor
  · intro online ops status
    have h := buildDeviceState_goodKeys online ops status
    exact marshal_unmarshal_goodState _ h.1 h.2
  · intro l b hnodup honline hstatus
    have hlook1 : lookupKV (eraseKV l "online") "status" = lookupKV l "status" :=
      lookupKV_eraseKV_ne _ _ _ (by decide)
    have hnodup1 : (keysOf (eraseKV l "online")).Nodup := by
      rw [keysOf_eraseKV]; exact hnodup.filter _
    have honl1 : "online" ∉ keysOf (eraseKV l "online") := by
      rw [keysOf_eraseKV]
      intro hmem
      have := (List.mem_filter.mp hmem).2
      simp at this
    rcases hstatus with hnone | ⟨s, hsome, hsne⟩
    · -- no status key: decoded Status is "" and the encoder emits only online
      refine ⟨⟨b, "", eraseKV l "online"⟩, [("online", Json.bool b)] ++ eraseKV l "online",
        ?_, ?_, ?_⟩
      · simp [DeviceState.unmarshalJSON, honline, hlook1, hnone]
      · rw [DeviceState.marshalJSON]
        simp only [if_neg (by decide : ¬ ("" : String).length > 0)]
        rw [show insertKV [] "online" (Json.bool b) = [("online", Json.bool b)] from rfl]
        rw [foldl_insertKV_append _ _ ?hdisj hnodup1]
        case hdisj =>
          intro k hkmem hmem
          have hke : k = "online" := by simpa [keysOf] using hmem
          exact honl1 (hke ▸ hkmem)
      · intro k
        by_cases hko : k = "online"
        · subst hko
          rw [List.singleton_append, lookupKV_cons, if_pos rfl, honline]
        · rw [List.singleton_append, lookupKV_cons,
            if_neg (fun hc => hko hc.symm),
            lookupKV_eraseKV_ne _ _ _ hko]
    · -- non-empty status key: both online and status survive the round trip
      have hst1 : eraseKV (eraseKV l "online") "status" = eraseKV (eraseKV l "status") "online" := by
        simp [eraseKV, List.filter_filter]
        congr 1
        funext p
        exact Bool.and_comm _ _
      have hnodup2 : (keysOf (eraseKV (eraseKV l "online") "status")).Nodup := by
        rw [keysOf_eraseKV]; exact hnodup1.filter _
      have honl2 : "online" ∉ keysOf (eraseKV (eraseKV l "online") "status") := by
        rw [keysOf_eraseKV]
        intro hmem
        exact honl1 (List.mem_filter.mp hmem).1
      have hsta2 : "status" ∉ keysOf (eraseKV (eraseKV l "online") "status") := by
        rw [keysOf_eraseKV]
        intro hmem
        have := (List.mem_filter.mp hmem).2
        simp at this
      have hlen : s.length > 0 := by
        cases hx : s with
        | mk cs =>
          cases cs with
          | nil => exact absurd hx hsne
          | cons c cs' => simp [String.length]
      refine ⟨⟨b, s, eraseKV (eraseKV l "online") "status"⟩,
        [("online", Json.bool b), ("status", Json.str s)]
          ++ eraseKV (eraseKV l "online") "status", ?_, ?_, ?_⟩
      · simp [DeviceState.unmarshalJSON, honline, hlook1, hsome]
      · rw [DeviceState.marshalJSON]
        simp only [if_pos hlen]
        rw [show insertKV (insertKV [] "online" (Json.bool b)) "status" (Json.str s)
            = [("online", Json.bool b), ("status", Json.str s)] from by
          rw [show insertKV [] "online" (Json.bool b) = [("online", Json.bool b)] from rfl]
          rw [insertKV_cons, if_neg (show ¬ ("online" = "status") by decide)]
          rfl]
        rw [foldl_insertKV_append _ _ ?hdisj2 hnodup2]
        case hdisj2 =>
          intro k hkmem hmem
          have hke : k = "online" ∨ k = "status" := by simpa [keysOf] using hmem
          rcases hke with rfl | rfl
          · exact honl2 hkmem
          · exact hsta2 hkmem
      · intro k
        by_cases hko : k = "online"
        · subst hko
          rw [List.cons_append, lookupKV_cons, if_pos rfl, honline]
        · by_cases hks : k = "status"
          · subst hks
            rw [List.cons_append, lookupKV_cons,
              if_neg (by decide : ¬ ("online" = "status")), List.cons_append,
              lookupKV_cons, if_pos rfl, hsome]
          · rw [List.cons_append, lookupKV_cons, if_neg (fun hc => hko hc.symm),
              List.cons_append, lookupKV_cons, if_neg (fun hc => hks hc.symm),
              List.nil_append, lookupKV_eraseKV_ne _ _ _ hks,
              lookupKV_eraseKV_ne _ _ _ hko]

/-- C7 witness: a concrete valid object round-trips through decode then
encode with the same key set and values. -/
theorem C7_roundtrip_witness :
    ∃ ds l', DeviceState.unmarshalJSON
        (.obj [("online", .bool true), ("status", .str "OK"), ("on", .bool true)]) = .ok ds ∧
      ds.marshalJSON = .obj l' ∧
      ∀ k, lookupKV l' k
        = lookupKV [("online", .bool true), ("status", .str "OK"), ("on", .bool true)] k :=
  C7_deviceState_codec_roundtrip.2
    [("online", .bool true), ("status", .str "OK"), ("on", .bool true)] true
    (by decide) rfl (Or.inr ⟨"OK", rfl, by decide⟩)

/-- C7 counterexample: for the valid object `{"online": true, "status": ""}`
(status is a string, merely empty) the encoder drops `status`, so
`encode(decode(X))` does not have the same key set as `X`. -/
theorem C7_empty_status_counterexample :
    DeviceState.unmarshalJSON (.obj [("online", .bool true), ("status", .str "")])
      = .ok ⟨true, "", []⟩ ∧
    DeviceState.marshalJSON ⟨true, "", []⟩ = .obj [("online", .bool true)] ∧
    ¬ (∀ k, lookupKV [("online", Json.bool true)] k
          = lookupKV [("online", Json.bool true), ("status", Json.str "")] k) := by
  refine ⟨rfl, rfl, fun h => ?_⟩
  have := h "status"
  simp [lookupKV] at this

/-- C10: `DeviceState` decode panics on a non-boolean `online` or a
non-string `status`, and a missing `online` key decodes successfully with
`Online` left `false`. -/
theorem C10_deviceState_unmarshal_partiality :
    (∀ (l : List (String × Json)) (v : Json),
       lookupKV l "online" = some v → (∀ b, v ≠ .bool b) →
       DeviceState.unmarshalJSON (.obj l) = .panics)
    ∧ (∀ (l : List (String × Json)) (v : Json),
       (lookupKV l "online" = none ∨ ∃ b, lookupKV l "online" = some (.bool b)) →
       lookupKV l "status" = some v → (∀ s, v ≠ .str s) →
       DeviceState.unmarshalJSON (.obj l) = .panics)
    ∧ (∀ (l : List (String × Json)),
       lookupKV l "online" = none →
       (lookupKV l "status" = none ∨ ∃ s, lookupKV l "status" = some (.str s)) →
       ∃ ds, DeviceState.unmarshalJSON (.obj l) = .ok ds ∧ ds.Online = false) := by
  refine ⟨?_, ?_, ?_⟩
  · intro l v hl hv
    cases v with
    | bool b => exact absurd rfl (hv b)
    | null => simp [DeviceState.unmarshalJSON, hl]
    | num q => simp [DeviceState.unmarshalJSON, hl]
    | str s => simp [DeviceState.unmarshalJSON, hl]
    | arr xs => simp [DeviceState.unmarshalJSON, hl]
    | obj o => simp [DeviceState.unmarshalJSON, hl]
  · intro l v honline hstatus hv
    have hlook1 : lookupKV (eraseKV l "online") "status" = lookupKV l "status" :=
      lookupKV_eraseKV_ne _ _ _ (by decide)
    rcases honline with hnone | ⟨b, hsome⟩
    · cases v with
      | str s => exact absurd rfl (hv s)
      | null => simp [DeviceState.unmarshalJSON, hnone, hstatus]
      | bool b => simp [DeviceState.unmarshalJSON, hnone, hstatus]
      | num q => simp [DeviceState.unmarshalJSON, hnone, hstatus]
      | arr xs => simp [DeviceState.unmarshalJSON, hnone, hstatus]
      | obj o => simp [DeviceState.unmarshalJSON, hnone, hstatus]
    · cases v with
      | str s => exact absurd rfl (hv s)
      | null => simp [DeviceState.unmarshalJSON, hsome, hlook1, hstatus]
      | bool b' => simp [DeviceState.unmarshalJSON, hsome, hlook1, hstatus]
      | num q => simp [DeviceState.unmarshalJSON, hsome, hlook1, hstatus]
      | arr xs => simp [DeviceState.unmarshalJSON, hsome, hlook1, hstatus]
      | obj o => simp [DeviceState.unmarshalJSON, hsome, hlook1, hstatus]
  · intro l hnone hstatus
    rcases hstatus with hsnone | ⟨s, hssome⟩
    · exact ⟨⟨false, "", l⟩, by simp [DeviceState.unmarshalJSON, hnone, hsnone], rfl⟩
    · exact ⟨⟨false, s, eraseKV l "status"⟩,
        by simp [DeviceState.unmarshalJSON, hnone, hssome], rfl⟩

/-- C10 witness: `{"online": 5}` panics, `{"status": 7}` panics, and `{}`
decodes with `Online = false`. -/
theorem C10_partiality_witness :
    DeviceState.unmarshalJSON (.obj [("online", .num 5)]) = .panics ∧
    DeviceState.unmarshalJSON (.obj [("status", .num 7)]) = .panics ∧
    ∃ ds, DeviceState.unmarshalJSON (.obj []) = .ok ds ∧ ds.Online = false := by
  refine ⟨?_, ?_, ?_⟩
  · exact C10_deviceState_unmarshal_partiality.1 [("online", .num 5)] (.num 5) rfl
      (fun b h => by cases h)
  · exact C10_deviceState_unmarshal_partiality.2.1 [("status", .num 7)] (.num 7)
      (Or.inl rfl) rfl (fun s h => by cases h)
  · exact C10_deviceState_unmarshal_partiality.2.2 [] rfl (Or.inl rfl)

/-! ### Lexicographic string order lemmas (for the trait-set model) -/

theorem charListLt_irrefl (l : List Char) : charListLt l l = false := by
  induction l with
  | nil => rfl
  | cons c rest ih => simp [charListLt, ih]

theorem charListLt_asymm : ∀ {a b : List Char},
    charListLt a b = true → charListLt b a = false
  | [], [], h => by simp [charListLt] at h
  | [], _ :: _, _ => rfl
  | _ :: _, [], h => by simp [charListLt] at h
  | a :: as, b :: bs, h => by
    rw [charListLt] at h
    rw [charListLt]
    by_cases hab : a < b
    · rw [if_neg (lt_asymm hab), if_neg (ne_of_gt hab)]
    · rw [if_neg hab] at h
      by_cases heq : a = b
      · rw [if_pos heq] at h
        subst heq
        rw [if_neg (lt_irrefl a), if_pos rfl]
        exact charListLt_asymm h
      · rw [if_neg heq] at h
        exact absurd h (by simp)

theorem charListLt_trans : ∀ {a b c : List Char},
    charListLt a b = true → charListLt b c = true → charListLt a c = true
  | [], b, [], h1, h2 => by
    cases b with
    | nil => simp [charListLt] at h1
    | cons c cs => simp [charListLt] at h2
  | [], _, _ :: _, _, _ => rfl
  | _ :: _, [], _, h1, _ => by simp [charListLt] at h1
  | _ :: _, _ :: _, [], _, h2 => by simp [charListLt] at h2
  | a :: as, b :: bs, c :: cs, h1, h2 => by
    rw [charListLt] at h1 h2 ⊢
    by_cases hab : a < b
    · by_cases hbc : b < c
      · rw [if_pos (lt_trans hab hbc)]
      · rw [if_neg hbc] at h2
        by_cases hbc' : b = c
        · subst hbc'
          rw [if_pos hab]
        · rw [if_neg hbc'] at h2
          exact absurd h2 (by simp)
    · rw [if_neg hab] at h1
      by_cases hab' : a = b
      · subst hab'
        rw [if_pos rfl] at h1
        by_cases hac : a < c
        · rw [if_pos hac]
        · rw [if_neg hac] at h2 ⊢
          by_cases hac' : a = c
          · rw [if_pos hac'] at h2 ⊢
            exact charListLt_trans h1 h2
          · rw [if_neg hac'] at h2
            exact absurd h2 (by simp)
      · rw [if_neg hab'] at h1
        exact absurd h1 (by simp)

theorem charListLt_eq_of_both_false : ∀ {a b : List Char},
    charListLt a b = false → charListLt b a = false → a = b
  | [], [], _, _ => rfl
  | [], _ :: _, h1, _ => by simp [charListLt] at h1
  | _ :: _, [], _, h2 => by simp [charListLt] at h2
  | a :: as, b :: bs, h1, h2 => by
    rw [charListLt] at h1 h2
    by_cases hab : a < b
    · rw [if_pos hab] at h1
      exact absurd h1 (by simp)
    · by_cases hba : b < a
      · rw [if_pos hba] at h2
        exact absurd h2 (by simp)
      · have heq : a = b := le_antisymm (not_lt.mp hba) (not_lt.mp hab)
        subst heq
        rw [if_neg hab, if_pos rfl] at h1
        rw [if_neg hba, if_pos rfl] at h2
        rw [charListLt_eq_of_both_false h1 h2]

theorem strLt_irrefl (s : String) : strLt s s = false := charListLt_irrefl s.data

theorem strLt_asymm {a b : String} (h : strLt a b = true) : strLt b a = false :=
  charListLt_asymm h

theorem strLt_trans {a b c : String} (h1 : strLt a b = true) (h2 : strLt b c = true) :
    strLt a c = true :=
  charListLt_trans h1 h2

theorem strLt_eq_of_both_false {a b : String} (h1 : strLt a b = false)
    (h2 : strLt b a = false) : a = b := by
  cases a with
  | mk as =>
    cases b with
    | mk bs =>
      exact congrArg String.mk (charListLt_eq_of_both_false h1 h2)

theorem strLt_true_of_false_of_ne {a b : String} (h : strLt a b = false) (hne : a ≠ b) :
    strLt b a = true := by
  cases hba : strLt b a with
  | true => rfl
  | false => exact absurd (strLt_eq_of_both_false h hba) hne

/-! ### Sorted trait-set lemmas (claims C8, C9) -/

theorem mem_insertSortedStr (k x : String) : ∀ l : List String,
    (x ∈ insertSortedStr k l ↔ x = k ∨ x ∈ l)
  | [] => by simp [insertSortedStr]
  | t :: rest => by
    rw [insertSortedStr]
    by_cases hlt : strLt k t
    · rw [if_pos hlt]
      simp [or_comm, or_left_comm]
    · rw [if_neg hlt]
      by_cases heq : k = t
      · subst heq
        simp [if_pos rfl]
      · rw [if_neg heq]
        simp only [List.mem_cons, mem_insertSortedStr k x rest]
        constructor
        · intro h
          rcases h with h | h | h
          · exact Or.inr (Or.inl h)
          · exact Or.inl h
          · exact Or.inr (Or.inr h)
        · intro h
          rcases h with h | h | h
          · exact Or.inr (Or.inl h)
          · exact Or.inl h
          · exact Or.inr (Or.inr h)

theorem sorted_insertSortedStr (k : String) : ∀ {l : List String},
    List.Pairwise (fun a b => strLt a b = true) l →
    List.Pairwise (fun a b => strLt a b = true) (insertSortedStr k l) := by
  intro l
  induction l with
  | nil => intro _; simp [insertSortedStr]
  | cons t rest ih =>
    intro h
    rcases List.pairwise_cons.mp h with ⟨ht, hrest⟩
    rw [insertSortedStr]
    by_cases hlt : strLt k t
    · rw [if_pos hlt]
      refine List.pairwise_cons.mpr ⟨?_, h⟩
      intro b hb
      rcases List.mem_cons.mp hb with rfl | hb
      · exact hlt
      · exact strLt_trans hlt (ht b hb)
    · rw [if_neg hlt]
      by_cases heq : k = t
      · rw [if_pos heq]; exact h
      · rw [if_neg heq]
        refine List.pairwise_cons.mpr ⟨?_, ih hrest⟩
        intro b hb
        rcases (mem_insertSortedStr k b rest).mp hb with rfl | hb
        · exact strLt_true_of_false_of_ne (by simpa using hlt) heq
        · exact ht b hb

theorem insertSortedStr_idem (k : String) : ∀ l : List String,
    insertSortedStr k (insertSortedStr k l) = insertSortedStr k l
  | [] => by
    rw [insertSortedStr, insertSortedStr, if_neg (by simp [strLt_irrefl]), if_pos rfl]
  | t :: rest => by
    rw [insertSortedStr]
    by_cases hlt : strLt k t
    · rw [if_pos hlt, insertSortedStr, if_neg (by simp [strLt_irrefl]), if_pos rfl]
    · rw [if_neg hlt]
      by_cases heq : k = t
      · rw [if_pos heq, insertSortedStr, if_neg hlt, if_pos heq]
      · rw [if_neg heq, insertSortedStr, if_neg hlt, if_neg heq,
          insertSortedStr_idem k rest]

theorem insertSortedStr_gt (k : String) : ∀ {acc : List String},
    (∀ a ∈ acc, strLt a k = true) → insertSortedStr k acc = acc ++ [k]
  | [], _ => rfl
  | t :: rest, h => by
    have htk : strLt t k = true := h t (List.mem_cons_self _ _)
    have hkt : ¬ strLt k t = true := by simp [strLt_asymm htk]
    have hne : k ≠ t := by
      intro hh
      subst hh
      simp [strLt_irrefl] at htk
    rw [insertSortedStr, if_neg hkt, if_neg hne,
      insertSortedStr_gt k (fun a ha => h a (List.mem_cons_of_mem _ ha))]
    rfl

theorem foldl_insertSortedStr_of_sorted (l : List String) :
    ∀ acc : List String,
      List.Pairwise (fun a b => strLt a b = true) (acc ++ l) →
      l.foldl (fun s t => insertSortedStr t s) acc = acc ++ l := by
  induction l with
  | nil => intro acc _; simp
  | cons t tail ih =>
    intro acc h
    have hlt : ∀ a ∈ acc, strLt a t = true := by
      intro a ha
      exact (List.pairwise_append.mp h).2.2 a ha t (List.mem_cons_self _ _)
    have h' : List.Pairwise (fun a b => strLt a b = true) ((acc ++ [t]) ++ tail) := by
      rw [List.append_assoc, List.singleton_append]
      exact h
    calc (t :: tail).foldl (fun s u => insertSortedStr u s) acc
        = tail.foldl (fun s u => insertSortedStr u s) (insertSortedStr t acc) := by simp
      _ = tail.foldl (fun s u => insertSortedStr u s) (acc ++ [t]) := by
          rw [insertSortedStr_gt t hlt]
      _ = (acc ++ [t]) ++ tail := ih (acc ++ [t]) h'
      _ = acc ++ t :: tail := by simp

theorem sortStrings_of_sorted : ∀ {l : List String},
    List.Pairwise (fun a b => strLt a b = true) l → sortStrings l = l
  | [], _ => rfl
  | t :: rest, h => by
    rcases List.pairwise_cons.mp h with ⟨ht, hrest⟩
    have ih := sortStrings_of_sorted hrest
    rw [sortStrings] at ih ⊢
    rw [List.foldr_cons, ih]
    cases rest with
    | nil => rfl
    | cons r rs =>
      rw [insOrdered, if_pos (ht r (List.mem_cons_self _ _))]

theorem sorted_eq_of_mem_iff : ∀ {l₁ l₂ : List String},
    List.Pairwise (fun a b => strLt a b = true) l₁ →
    List.Pairwise (fun a b => strLt a b = true) l₂ →
    (∀ x, x ∈ l₁ ↔ x ∈ l₂) → l₁ = l₂
  | [], [], _, _, _ => rfl
  | [], b :: bs, _, _, hm => by
    have := (hm b).mpr (List.mem_cons_self _ _)
    simp at this
  | a :: as, [], _, _, hm => by
    have := (hm a).mp (List.mem_cons_self _ _)
    simp at this
  | a :: as, b :: bs, h₁, h₂, hm => by
    rcases List.pairwise_cons.mp h₁ with ⟨ha, has⟩
    rcases List.pairwise_cons.mp h₂ with ⟨hb, hbs⟩
    have hab : a = b := by
      rcases List.mem_cons.mp ((hm a).mp (List.mem_cons_self _ _)) with h | h
      · exact h
      · rcases List.mem_cons.mp ((hm b).mpr (List.mem_cons_self _ _)) with h' | h'
        · exact h'.symm
        · have h1 := hb a h
          have h2 := ha b h'
          have := strLt_asymm h1
          rw [this] at h2
          exact absurd h2 (by simp)
    subst hab
    have htails : ∀ x, x ∈ as ↔ x ∈ bs := by
      intro x
      constructor
      · intro hx
        rcases List.mem_cons.mp ((hm x).mp (List.mem_cons_of_mem _ hx)) with h | h
        · subst h
          have := ha x hx
          simp [strLt_irrefl] at this
        · exact h
      · intro hx
        rcases List.mem_cons.mp ((hm x).mpr (List.mem_cons_of_mem _ hx)) with h | h
        · subst h
          have := hb x hx
          simp [strLt_irrefl] at this
        · exact h
    rw [sorted_eq_of_mem_iff has hbs htails]

/-! ### Trait-registration bridge lemmas (claims C8, C9) -/

theorem applyTraitOp_Traits (d : Device) (op : TraitOp) :
    (d.applyTraitOp op).Traits = insertSortedStr op.traitName d.Traits := by
  cases op with
  | brightness oc => cases oc <;> rfl
  | colour m oc => cases oc <;> rfl
  | colourTemperature mn mx oc => cases oc <;> rfl
  | inputSelector i o => rfl
  | onOff oc oq => cases oc <;> cases oq <;> rfl
  | volume mx cm oc => cases oc <;> rfl

theorem applyTraitOp_Attributes (d : Device) (op : TraitOp) :
    (d.applyTraitOp op).Attributes
      = op.attrWrites.foldl (fun m p => insertKV m p.1 p.2) d.Attributes := by
  cases op with
  | brightness oc => cases oc <;> rfl
  | colour m oc => cases oc <;> rfl
  | colourTemperature mn mx oc => cases oc <;> rfl
  | inputSelector i o => rfl
  | onOff oc oq => cases oc <;> cases oq <;> rfl
  | volume mx cm oc => cases oc <;> rfl

theorem applyTraitOp_otherFields (d : Device) (op : TraitOp) :
    (d.applyTraitOp op).ID = d.ID ∧ (d.applyTraitOp op).Typ = d.Typ ∧
    (d.applyTraitOp op).Name = d.Name ∧
    (d.applyTraitOp op).WillReportState = d.WillReportState ∧
    (d.applyTraitOp op).RoomHint = d.RoomHint ∧
    (d.applyTraitOp op).DeviceInfo = d.DeviceInfo ∧
    (d.applyTraitOp op).OtherDeviceIDs = d.OtherDeviceIDs ∧
    (d.applyTraitOp op).CustomData = d.CustomData := by
  cases op with
  | brightness oc => cases oc <;> exact ⟨rfl, rfl, rfl, rfl, rfl, rfl, rfl, rfl⟩
  | colour m oc => cases oc <;> exact ⟨rfl, rfl, rfl, rfl, rfl, rfl, rfl, rfl⟩
  | colourTemperature mn mx oc => cases oc <;> exact ⟨rfl, rfl, rfl, rfl, rfl, rfl, rfl, rfl⟩
  | inputSelector i o => exact ⟨rfl, rfl, rfl, rfl, rfl, rfl, rfl, rfl⟩
  | onOff oc oq => cases oc <;> cases oq <;> exact ⟨rfl, rfl, rfl, rfl, rfl, rfl, rfl, rfl⟩
  | volume mx cm oc => cases oc <;> exact ⟨rfl, rfl, rfl, rfl, rfl, rfl, rfl, rfl⟩

theorem foldl_applyTraitOp_Traits (ops : List TraitOp) :
    ∀ d : Device, (ops.foldl Device.applyTraitOp d).Traits
      = ops.foldl (fun ts op => insertSortedStr op.traitName ts) d.Traits := by
  induction ops with
  | nil => intro d; rfl
  | cons op rest ih =>
    intro d
    rw [List.foldl_cons, List.foldl_cons, ih, applyTraitOp_Traits]

theorem sorted_foldl_insertTraits (ops : List TraitOp) :
    ∀ ts : List String, List.Pairwise (fun a b => strLt a b = true) ts →
      List.Pairwise (fun a b => strLt a b = true)
        (ops.foldl (fun ts op => insertSortedStr op.traitName ts) ts) := by
  induction ops with
  | nil => intro ts h; exact h
  | cons op rest ih =>
    intro ts h
    exact ih _ (sorted_insertSortedStr _ h)

theorem mem_foldl_insertTraits (ops : List TraitOp) :
    ∀ (ts : List String) (x : String),
      x ∈ ops.foldl (fun ts op => insertSortedStr op.traitName ts) ts
        ↔ x ∈ ts ∨ x ∈ ops.map TraitOp.traitName := by
  induction ops with
  | nil => intro ts x; simp
  | cons op rest ih =>
    intro ts x
    rw [List.foldl_cons, ih, mem_insertSortedStr]
    simp only [List.map_cons, List.mem_cons]
    constructor
    · intro h
      rcases h with (h | h) | h
      · exact Or.inr (Or.inl h)
      · exact Or.inl h
      · exact Or.inr (Or.inr h)
    · intro h
      rcases h with h | h | h
      · exact Or.inl (Or.inr h)
      · exact Or.inl (Or.inl h)
      · exact Or.inr h

theorem buildDevice_Traits (id typ : String) (ops : List TraitOp) (nm : DeviceName)
    (room : String) (rep : Bool) (info : DeviceInfo) (others : List OtherDeviceID)
    (cd : List (String × Json)) :
    (buildDevice id typ ops nm room rep info others cd).Traits
      = ops.foldl (fun ts op => insertSortedStr op.traitName ts) [] := by
  show (ops.foldl Device.applyTraitOp (NewDevice id typ)).Traits = _
  rw [foldl_applyTraitOp_Traits]
  rfl

theorem buildDevice_Traits_sorted (id typ : String) (ops : List TraitOp) (nm : DeviceName)
    (room : String) (rep : Bool) (info : DeviceInfo) (others : List OtherDeviceID)
    (cd : List (String × Json)) :
    List.Pairwise (fun a b => strLt a b = true)
      (buildDevice id typ ops nm room rep info others cd).Traits := by
  rw [buildDevice_Traits]
  exact sorted_foldl_insertTraits ops [] List.Pairwise.nil

/-- A `Device` whose trait set is in canonical sorted form survives the
encode/decode round trip unchanged. -/
theorem device_roundtrip_of_sorted (d : Device)
    (h : List.Pairwise (fun a b => strLt a b = true) d.Traits) :
    Device.unmarshalJSON d.marshalJSON = d := by
  have h1 : sortStrings d.Traits = d.Traits := sortStrings_of_sorted h
  have h2 : d.Traits.foldl (fun s t => insertSortedStr t s) [] = d.Traits := by
    have := foldl_insertSortedStr_of_sorted d.Traits [] (by simpa using h)
    simpa using this
  obtain ⟨i, ty, tr, nm, wrs, rh, attrs, di, ods, cd⟩ := d
  simp only at h1 h2
  rw [Device.marshalJSON, Device.unmarshalJSON]
  simp only [h1, h2, List.map_map]
  have hmap : ((fun o : OtherDeviceID => OtherDeviceID.mk o.AgentID o.DeviceID) ∘
      (fun o : OtherDeviceID => OtherDeviceID.mk o.AgentID o.DeviceID)) = id := by
    funext o
    rfl
  rw [hmap, List.map_id]

/-- C8: every device built from `NewDevice` plus trait registrations plus
direct field assignments round-trips through the codec, its encoded trait
list is sorted, and the trait set does not depend on the registration
order. -/
theorem C8_device_codec_roundtrip :
    ∀ (id typ : String) (ops : List TraitOp) (nm : DeviceName) (room : String)
      (rep : Bool) (info : DeviceInfo) (others : List OtherDeviceID)
      (cd : List (String × Json)),
      Device.unmarshalJSON
          (Device.marshalJSON (buildDevice id typ ops nm room rep info others cd))
        = buildDevice id typ ops nm room rep info others cd
      ∧ List.Pairwise (fun a b => strLt a b = true)
          (Device.marshalJSON (buildDevice id typ ops nm room rep info others cd)).Traits
      ∧ ∀ ops' : List TraitOp, ops'.Perm ops →
          (buildDevice id typ ops' nm room rep info others cd).Traits
            = (buildDevice id typ ops nm room rep info others cd).Traits := by
  intro id typ ops nm room rep info others cd
  have hsorted := buildDevice_Traits_sorted id typ ops nm room rep info others cd
  refine ⟨device_roundtrip_of_sorted _ hsorted, ?_, ?_⟩
  · have : (Device.marshalJSON (buildDevice id typ ops nm room rep info others cd)).Traits
        = sortStrings (buildDevice id typ ops nm room rep info others cd).Traits := rfl
    rw [this, sortStrings_of_sorted hsorted]
    exact hsorted
  · intro ops' hperm
    have hs' := buildDevice_Traits_sorted id typ ops' nm room rep info others cd
    apply sorted_eq_of_mem_iff hs' hsorted
    intro x
    rw [buildDevice_Traits, buildDevice_Traits, mem_foldl_insertTraits,
      mem_foldl_insertTraits]
    have : x ∈ ops'.map TraitOp.traitName ↔ x ∈ ops.map TraitOp.traitName :=
      (hperm.map TraitOp.traitName).mem_iff
    rw [this]

/-- C8 witness: a light registered as Brightness-then-OnOff and as
OnOff-then-Brightness yields the same trait set, and the concrete device
round-trips. -/
theorem C8_roundtrip_witness :
    Device.unmarshalJSON
        (Device.marshalJSON (buildDevice "456" "action.devices.types.LIGHT"
          [.onOff false false, .brightness false] ⟨[], "lamp1", []⟩ "office" false
          ⟨"acme", "hg11", "1.2", "5.4"⟩ [] []))
      = buildDevice "456" "action.devices.types.LIGHT"
          [.onOff false false, .brightness false] ⟨[], "lamp1", []⟩ "office" false
          ⟨"acme", "hg11", "1.2", "5.4"⟩ [] []
    ∧ (buildDevice "456" "action.devices.types.LIGHT"
          [.brightness false, .onOff false false] ⟨[], "lamp1", []⟩ "office" false
          ⟨"acme", "hg11", "1.2", "5.4"⟩ [] []).Traits
        = (buildDevice "456" "action.devices.types.LIGHT"
          [.onOff false false, .brightness false] ⟨[], "lamp1", []⟩ "office" false
          ⟨"acme", "hg11", "1.2", "5.4"⟩ [] []).Traits := by
  have h := C8_device_codec_roundtrip "456" "action.devices.types.LIGHT"
    [.onOff false false, .brightness false] ⟨[], "lamp1", []⟩ "office" false
    ⟨"acme", "hg11", "1.2", "5.4"⟩ [] []
  exact ⟨h.1, h.2.2 [.brightness false, .onOff false false]
    (List.Perm.swap (TraitOp.onOff false false) (TraitOp.brightness false) [])⟩

/-! ### Attribute last-write lemmas (claim C9) -/

theorem lastWrite_aux (ws : List (String × Json)) :
    ∀ (acc : Option Json) (k : String),
      ws.foldl (fun a p => if p.1 = k then some p.2 else a) acc
        = match lastWrite ws k with
          | some v => some v
          | none => acc := by
  induction ws with
  | nil => intro acc k; rfl
  | cons p ws ih =>
    intro acc k
    rw [List.foldl_cons, ih]
    rw [show lastWrite (p :: ws) k
        = ws.foldl (fun a q => if q.1 = k then some q.2 else a)
            (if p.1 = k then some p.2 else none) from rfl, ih]
    cases hlw : lastWrite ws k with
    | some v => rfl
    | none =>
      by_cases hp : p.1 = k
      · rw [if_pos hp, if_pos hp]
      · rw [if_neg hp, if_neg hp]

theorem lookup_foldl_insertKV (ws : List (String × Json)) :
    ∀ (m : List (String × Json)) (k : String),
      lookupKV (ws.foldl (fun acc p => insertKV acc p.1 p.2) m) k
        = match lastWrite ws k with
          | some v => some v
          | none => lookupKV m k := by
  induction ws with
  | nil => intro m k; rfl
  | cons p ws ih =>
    intro m k
    rw [List.foldl_cons, ih]
    rw [show lastWrite (p :: ws) k
        = ws.foldl (fun a q => if q.1 = k then some q.2 else a)
            (if p.1 = k then some p.2 else none) from rfl, lastWrite_aux]
    cases hlw : lastWrite ws k with
    | some v => rfl
    | none =>
      by_cases hp : p.1 = k
      · subst hp
        rw [if_pos rfl, lookupKV_insertKV_self]
      · rw [if_neg hp, lookupKV_insertKV_ne _ _ _ _ hp]

theorem mem_keysOf_foldl_insertKV (ws : List (String × Json)) :
    ∀ (m : List (String × Json)) (k : String),
      k ∈ keysOf m → k ∈ keysOf (ws.foldl (fun acc p => insertKV acc p.1 p.2) m) := by
  induction ws with
  | nil => intro m k h; exact h
  | cons p ws ih =>
    intro m k h
    rw [List.foldl_cons]
    apply ih
    rw [keysOf_insertKV]
    by_cases hm : p.1 ∈ keysOf m
    · rw [if_pos hm]; exact h
    · rw [if_neg hm]; exact List.mem_append_left _ h

/-- C9: registering the same trait twice (any arguments) is idempotent on
the trait set; attribute keys are only added or overwritten, never removed;
and for every key an operation writes, the operation's last written value
wins, while unwritten keys keep their previous value. -/
theorem C9_trait_registration_properties :
    (∀ (d : Device) (op op' : TraitOp), op.traitName = op'.traitName →
       ((d.applyTraitOp op).applyTraitOp op').Traits = (d.applyTraitOp op').Traits
       ∧ ((d.applyTraitOp op).applyTraitOp op').Traits = (d.applyTraitOp op).Traits)
    ∧ (∀ (d : Device) (op : TraitOp) (k : String),
        k ∈ keysOf d.Attributes → k ∈ keysOf (d.applyTraitOp op).Attributes)
    ∧ (∀ (d : Device) (op : TraitOp) (k : String),
        (∀ v, lastWrite op.attrWrites k = some v →
           lookupKV (d.applyTraitOp op).Attributes k = some v)
        ∧ (lastWrite op.attrWrites k = none →
           lookupKV (d.applyTraitOp op).Attributes k = lookupKV d.Attributes k)) := by
  refine ⟨?_, ?_, ?_⟩
  · intro d op op' hname
    rw [applyTraitOp_Traits, applyTraitOp_Traits, applyTraitOp_Traits, hname,
      insertSortedStr_idem]
    exact ⟨rfl, rfl⟩
  · intro d op k h
    rw [applyTraitOp_Attributes]
    exact mem_keysOf_foldl_insertKV _ _ _ h
  · intro d op k
    constructor
    · intro v hv
      rw [applyTraitOp_Attributes, lookup_foldl_insertKV, hv]
    · intro hv
      rw [applyTraitOp_Attributes, lookup_foldl_insertKV, hv]

/-- C9 witness: adding the colour trait twice keeps one trait entry; the
later `colorModel` write wins; `volumeMaxLevel` keeps its old value when a
later operation does not write it. -/
theorem C9_registration_witness :
    (((NewDevice "x" "t").applyTraitOp (.colour "rgb" false)).applyTraitOp
        (.colour "hsv" false)).Traits
      = ((NewDevice "x" "t").applyTraitOp (.colour "hsv" false)).Traits
    ∧ "volumeMaxLevel" ∈ keysOf
        (((NewDevice "x" "t").applyTraitOp (.volume 50 true false)).applyTraitOp
          (.colour "hsv" false)).Attributes
    ∧ lookupKV (((NewDevice "x" "t").applyTraitOp (.colour "rgb" false)).applyTraitOp
          (.colour "hsv" false)).Attributes "colorModel" = some (.str "hsv") := by
  refine ⟨?_, ?_, ?_⟩
  · exact (C9_trait_registration_properties.1 (NewDevice "x" "t")
      (.colour "rgb" false) (.colour "hsv" false) rfl).1
  · exact C9_trait_registration_properties.2.1
      ((NewDevice "x" "t").applyTraitOp (.volume 50 true false))
      (.colour "hsv" false) "volumeMaxLevel" (by decide)
  · exact (C9_trait_registration_properties.2.2
      ((NewDevice "x" "t").applyTraitOp (.colour "rgb" false))
      (.colour "hsv" false) "colorModel").1 (.str "hsv") rfl

/-! ### Command codec lemmas (claims C4, C5, C6) -/

theorem exceptBind_ok {α β : Type} (a : α) (f : α → Except Unit β) :
    (Except.ok a >>= f : Except Unit β) = f a := rfl

theorem exceptBind_err {α β : Type} (f : α → Except Unit β) :
    (Except.error () >>= f : Except Unit β) = Except.error () := rfl

theorem exceptMap_ok {α β : Type} (a : α) (f : α → β) :
    (Except.ok a : Except Unit α).map f = Except.ok (f a) := rfl

theorem exceptMap_err {α β : Type} (f : α → β) :
    (Except.error () : Except Unit α).map f = Except.error () := rfl

theorem dec_enc_brightnessAbsolute (p : CommandBrightnessAbsolute) :
    decBrightnessAbsolute (encBrightnessAbsolute p) = .ok p := by
  simp [encBrightnessAbsolute, decBrightnessAbsolute, decodeIntField, lookupKV,
    Rat.den_intCast, Rat.num_intCast]
  rfl

theorem dec_enc_brightnessRelative (p : CommandBrightnessRelative) :
    decBrightnessRelative (encBrightnessRelative p) = .ok p := by
  simp [encBrightnessRelative, decBrightnessRelative, decodeIntField, lookupKV,
    Rat.den_intCast, Rat.num_intCast]
  rfl

theorem dec_enc_colorAbsolute (p : CommandColorAbsolute) :
    decColorAbsolute (encColorAbsolute p) = .ok p := by
  simp [encColorAbsolute, decColorAbsolute, decodeColorAbsColorField,
    decodeColorAbsHSVField, decodeStringField, decodeIntField, decodeFloatField,
    lookupKV, Rat.den_intCast, Rat.num_intCast]
  rfl

theorem dec_enc_onOff (p : CommandOnOff) : decOnOff (encOnOff p) = .ok p := by
  simp [encOnOff, decOnOff, decodeBoolField, lookupKV]
  rfl

theorem dec_enc_mute (p : CommandMute) : decMute (encMute p) = .ok p := by
  simp [encMute, decMute, decodeBoolField, lookupKV]
  rfl

theorem dec_enc_setVolume (p : CommandSetVolume) : decSetVolume (encSetVolume p) = .ok p := by
  simp [encSetVolume, decSetVolume, decodeIntField, lookupKV,
    Rat.den_intCast, Rat.num_intCast]
  rfl

theorem dec_enc_setVolumeRelative (p : CommandSetVolumeRelative) :
    decSetVolumeRelative (encSetVolumeRelative p) = .ok p := by
  simp [encSetVolumeRelative, decSetVolumeRelative, decodeIntField, lookupKV,
    Rat.den_intCast, Rat.num_intCast]
  rfl

theorem dec_enc_setInput (p : CommandSetInput) : decSetInput (encSetInput p) = .ok p := by
  simp [encSetInput, decSetInput, decodeStringField, lookupKV]
  rfl

theorem dec_enc_nextInput (p : CommandNextInput) : decNextInput (encNextInput p) = .ok p :=
  rfl

theorem dec_enc_previousInput (p : CommandPreviousInput) :
    decPreviousInput (encPreviousInput p) = .ok p := rfl

theorem dec_enc_setFanSpeed (p : CommandSetFanSpeed) :
    decSetFanSpeed (encSetFanSpeed p) = .ok p := by
  obtain ⟨fs, fp⟩ := p
  cases fs <;> cases fp <;>
    (simp [encSetFanSpeed, decSetFanSpeed, decodeOptStringField, decodeOptFloatField,
      lookupKV]; rfl)

theorem dec_enc_thermostatTemperatureSetpoint (p : CommandThermostatTemperatureSetpoint) :
    decThermostatTemperatureSetpoint (encThermostatTemperatureSetpoint p) = .ok p := by
  simp [encThermostatTemperatureSetpoint, decThermostatTemperatureSetpoint,
    decodeFloatField, lookupKV]
  rfl

theorem dec_enc_openClose (p : CommandOpenClose) : decOpenClose (encOpenClose p) = .ok p := by
  obtain ⟨n, dir⟩ := p
  cases dir <;>
    (simp [encOpenClose, decOpenClose, decodeIntField, decodeOptStringField, lookupKV,
      Rat.den_intCast, Rat.num_intCast]; rfl)

theorem dec_enc_openCloseRelative (p : CommandOpenCloseRelative) :
    decOpenCloseRelative (encOpenCloseRelative p) = .ok p := by
  obtain ⟨n, dir⟩ := p
  cases dir <;>
    (simp [encOpenCloseRelative, decOpenCloseRelative, decodeIntField,
      decodeOptStringField, lookupKV, Rat.den_intCast, Rat.num_intCast]; rfl)

theorem decodeChallenge_challengeEnvelope (ch : Option (List (String × Json))) :
    ∃ ch', decodeChallengeField (lookupKV (challengeEnvelope ch) "challenge") = .ok ch' := by
  cases ch with
  | none => exact ⟨none, rfl⟩
  | some l =>
    cases l with
    | nil => exact ⟨none, rfl⟩
    | cons p rest => exact ⟨some (p :: rest), rfl⟩

theorem decodeStrMap_roundtrip (l : List (String × String)) :
    decodeStrMapField (some (.obj (l.map (fun p => (p.1, Json.str p.2))))) = .ok l := by
  induction l with
  | nil => rfl
  | cons p rest ih =>
    simp only [decodeStrMapField, List.map_cons, List.foldr_cons] at ih ⊢
    rw [ih]
    rfl

theorem unmarshal_obj_known (l : List (String × Json)) (name : String)
    (dec : Json → Except Unit KnownPayload) (ch : Option (List (String × Json)))
    (hcmd : lookupKV l "command" = some (.str name))
    (hch : decodeChallengeField (lookupKV l "challenge") = .ok ch)
    (hkd : knownDecoder name = some dec) :
    Command.unmarshalJSON (.obj l)
      = ((dec ((lookupKV l "params").getD .null)).map
          (fun kp => ({ emptyCommand with Name := name, Challenge := ch }).setPayload kp)) := by
  rw [Command.unmarshalJSON]
  simp only [hcmd, hch, hkd, decodeStringField, exceptBind_ok]
  cases hres : dec ((lookupKV l "params").getD .null) with
  | ok kp => simp only [hres, exceptBind_ok, exceptMap_ok]
  | error e => cases e; simp only [hres, exceptBind_err, exceptMap_err]

theorem unmarshal_obj_unknown (l : List (String × Json)) (name : String)
    (ch : Option (List (String × Json)))
    (hcmd : lookupKV l "command" = some (.str name))
    (hch : decodeChallengeField (lookupKV l "challenge") = .ok ch)
    (hkd : knownDecoder name = none) :
    Command.unmarshalJSON (.obj l)
      = ((decodeCommandGeneric (.obj l)).map
          (fun g => { emptyCommand with Name := name, Challenge := ch, Generic := some g })) := by
  rw [Command.unmarshalJSON]
  simp only [hcmd, hch, hkd, decodeStringField, exceptBind_ok]
  cases hres : decodeCommandGeneric (.obj l) with
  | ok g => simp only [hres, exceptBind_ok, exceptMap_ok]
  | error e => cases e; simp only [hres, exceptBind_err, exceptMap_err]

theorem knownDecoder_null_ok (name : String) (dec : Json → Except Unit KnownPayload)
    (hkd : knownDecoder name = some dec) : ∃ kp, dec .null = .ok kp := by
  unfold knownDecoder at hkd
  split at hkd <;>
    first
      | (injection hkd with h; subst h; exact ⟨_, rfl⟩)
      | exact Option.noConfusion hkd

theorem knownDecoder_wireName_isSome (kp : KnownPayload) :
    ∃ dec, knownDecoder kp.wireName = some dec := by
  cases kp <;> exact ⟨_, rfl⟩

theorem setPayload_Name (c : Command) (kp : KnownPayload) :
    (c.setPayload kp).Name = c.Name := by
  cases kp <;> rfl

theorem getPayload_setPayload (c : Command) (kp : KnownPayload) :
    (c.setPayload kp).getPayload kp.wireName = some kp := by
  cases kp <;> rfl

theorem knownPayloadCount_setPayload_base (n : String)
    (ch : Option (List (String × Json))) (kp : KnownPayload) :
    (Command.setPayload { emptyCommand with Name := n, Challenge := ch } kp).knownPayloadCount
      = 1 := by
  cases kp <;> rfl

theorem marshal_known (c : Command) (kp : KnownPayload)
    (hn : c.Name = kp.wireName) (hp : c.getPayload c.Name = some kp) :
    c.marshalJSON = .obj (("command", Json.str c.Name) :: ("params", kp.toJson)
      :: challengeEnvelope c.Challenge) := by
  obtain ⟨dec, hdec⟩ : ∃ dec, knownDecoder c.Name = some dec := by
    rw [hn]; exact knownDecoder_wireName_isSome kp
  rw [Command.marshalJSON]
  simp only [hdec, hp]
  rfl

theorem decKnown_toJson (kp : KnownPayload) (dec : Json → Except Unit KnownPayload)
    (hdec : knownDecoder kp.wireName = some dec) : dec kp.toJson = .ok kp := by
  cases kp with
  | brightnessAbsolute p =>
    injection hdec with h
    simp only [← h, KnownPayload.toJson, dec_enc_brightnessAbsolute, exceptMap_ok]
  | brightnessRelative p =>
    injection hdec with h
    simp only [← h, KnownPayload.toJson, dec_enc_brightnessRelative, exceptMap_ok]
  | colorAbsolute p =>
    injection hdec with h
    simp only [← h, KnownPayload.toJson, dec_enc_colorAbsolute, exceptMap_ok]
  | onOff p =>
    injection hdec with h
    simp only [← h, KnownPayload.toJson, dec_enc_onOff, exceptMap_ok]
  | mute p =>
    injection hdec with h
    simp only [← h, KnownPayload.toJson, dec_enc_mute, exceptMap_ok]
  | setVolume p =>
    injection hdec with h
    simp only [← h, KnownPayload.toJson, dec_enc_setVolume, exceptMap_ok]
  | adjustVolume p =>
    injection hdec with h
    simp only [← h, KnownPayload.toJson, dec_enc_setVolumeRelative, exceptMap_ok]
  | setInput p =>
    injection hdec with h
    simp only [← h, KnownPayload.toJson, dec_enc_setInput, exceptMap_ok]
  | nextInput p =>
    injection hdec with h
    simp only [← h, KnownPayload.toJson, dec_enc_nextInput, exceptMap_ok]
  | previousInput p =>
    injection hdec with h
    simp only [← h, KnownPayload.toJson, dec_enc_previousInput, exceptMap_ok]
  | setFanSpeed p =>
    injection hdec with h
    simp only [← h, KnownPayload.toJson, dec_enc_setFanSpeed, exceptMap_ok]
  | thermostatTemperatureSetpoint p =>
    injection hdec with h
    simp only [← h, KnownPayload.toJson, dec_enc_thermostatTemperatureSetpoint, exceptMap_ok]
  | openClose p =>
    injection hdec with h
    simp only [← h, KnownPayload.toJson, dec_enc_openClose, exceptMap_ok]
  | openCloseRelative p =>
    injection hdec with h
    simp only [← h, KnownPayload.toJson, dec_enc_openCloseRelative, exceptMap_ok]

/-- C4: for a known command name, decoding with the `params` key absent is
identical to decoding with an explicit `null` and succeeds; a failing payload
decode propagates as an error of the whole decode, and a succeeding one
populates exactly the selected shape; for an unrecognized name the whole
envelope is parsed into the generic shape, capturing the name and the
free-form params mapping. -/
theorem C4_command_unmarshal_behaviour :
    (∀ (l : List (String × Json)) (name : String)
       (dec : Json → Except Unit KnownPayload) (ch : Option (List (String × Json))),
       lookupKV l "command" = some (.str name) →
       decodeChallengeField (lookupKV l "challenge") = .ok ch →
       knownDecoder name = some dec →
       lookupKV l "params" = none →
       Command.unmarshalJSON (.obj l)
           = Command.unmarshalJSON (.obj (insertKV l "params" .null))
         ∧ ∃ c, Command.unmarshalJSON (.obj l) = .ok c)
    ∧ (∀ (l : List (String × Json)) (name : String)
       (dec : Json → Except Unit KnownPayload) (ch : Option (List (String × Json))),
       lookupKV l "command" = some (.str name) →
       decodeChallengeField (lookupKV l "challenge") = .ok ch →
       knownDecoder name = some dec →
       (dec ((lookupKV l "params").getD .null) = .error () →
          Command.unmarshalJSON (.obj l) = .error ())
       ∧ ∀ kp, dec ((lookupKV l "params").getD .null) = .ok kp →
          Command.unmarshalJSON (.obj l)
            = .ok (({ emptyCommand with Name := name, Challenge := ch }).setPayload kp))
    ∧ (∀ (l : List (String × Json)) (name : String)
       (ch : Option (List (String × Json))) (g : CommandGeneric),
       lookupKV l "command" = some (.str name) →
       decodeChallengeField (lookupKV l "challenge") = .ok ch →
       knownDecoder name = none →
       decodeCommandGeneric (.obj l) = .ok g →
       Command.unmarshalJSON (.obj l)
           = .ok { emptyCommand with Name := name, Challenge := ch, Generic := some g }
         ∧ g.Command = name
         ∧ ∀ pl, lookupKV l "params" = some (.obj pl) → g.Params = pl) := by
  refine ⟨?_, ?_, ?_⟩
  · intro l name dec ch hcmd hch hkd hp
    have hcmd' : lookupKV (insertKV l "params" .null) "command" = some (.str name) := by
      rw [lookupKV_insertKV_ne _ _ _ _ (by decide)]; exact hcmd
    have hch' : decodeChallengeField (lookupKV (insertKV l "params" .null) "challenge")
        = .ok ch := by
      rw [lookupKV_insertKV_ne _ _ _ _ (by decide)]; exact hch
    have h1 := unmarshal_obj_known l name dec ch hcmd hch hkd
    have h2 := unmarshal_obj_known (insertKV l "params" .null) name dec ch hcmd' hch' hkd
    obtain ⟨kp, hkp⟩ := knownDecoder_null_ok name dec hkd
    constructor
    · rw [h1, h2, hp, lookupKV_insertKV_self]
      rfl
    · refine ⟨({ emptyCommand with Name := name, Challenge := ch }).setPayload kp, ?_⟩
      rw [h1, hp]
      rw [show (none : Option Json).getD Json.null = Json.null from rfl, hkp, exceptMap_ok]
  · intro l name dec ch hcmd hch hkd
    have h1 := unmarshal_obj_known l name dec ch hcmd hch hkd
    constructor
    · intro herr
      rw [h1, herr, exceptMap_err]
    · intro kp hkp
      rw [h1, hkp, exceptMap_ok]
  · intro l name ch g hcmd hch hkd hg
    have h1 := unmarshal_obj_unknown l name ch hcmd hch hkd
    have hchar : g.Command = name ∧ ∀ pl, lookupKV l "params" = some (.obj pl) →
        g.Params = pl := by
      rw [decodeCommandGeneric] at hg
      simp only [hcmd, decodeStringField, exceptBind_ok] at hg
      cases hpm : decodeMapField (lookupKV l "params") with
      | error e =>
        cases e
        simp only [hpm, exceptBind_err] at hg
        exact Except.noConfusion hg
      | ok params =>
        cases hcm : decodeStrMapField (lookupKV l "challenge") with
        | error e =>
          cases e
          simp only [hpm, hcm, exceptBind_ok, exceptBind_err] at hg
          exact Except.noConfusion hg
        | ok chal =>
          simp only [hpm, hcm, exceptBind_ok] at hg
          injection hg with hg'
          constructor
          · rw [← hg']
          · intro pl hpl
            rw [← hg']
            rw [hpl] at hpm
            rw [show decodeMapField (some (Json.obj pl)) = .ok pl from rfl] at hpm
            injection hpm with h2
            exact h2.symm
    exact ⟨by rw [h1, hg, exceptMap_ok], hchar⟩

/-- C4 witness: a known command with no `params` key decodes the same as
with `params: null` and succeeds. -/
theorem C4_absent_params_witness :
    Command.unmarshalJSON (.obj [("command", .str "action.devices.commands.OnOff")])
        = Command.unmarshalJSON
            (.obj (insertKV [("command", .str "action.devices.commands.OnOff")]
              "params" .null))
      ∧ ∃ c, Command.unmarshalJSON
          (.obj [("command", .str "action.devices.commands.OnOff")]) = .ok c :=
  C4_command_unmarshal_behaviour.1
    [("command", .str "action.devices.commands.OnOff")]
    "action.devices.commands.OnOff" _ none rfl rfl rfl rfl

/-- C5: encoding a command with an unknown name serializes the `Generic`
field directly (its own `command` and `params`, no wrapper envelope);
a known name selects the matching payload under the
`{command, params, challenge?}` envelope. -/
theorem C5_command_marshal_selection :
    (∀ (c : Command) (g : CommandGeneric),
       knownDecoder c.Name = none → c.Generic = some g →
       c.marshalJSON
         = .obj ([("command", Json.str g.Command), ("params", Json.obj g.Params)]
             ++ (if g.Challenge.isEmpty then []
                 else [("challenge",
                   Json.obj (g.Challenge.map (fun p => (p.1, Json.str p.2))))])))
    ∧ (∀ (c : Command) (kp : KnownPayload),
       c.Name = kp.wireName → c.getPayload c.Name = some kp →
       c.marshalJSON
         = .obj (("command", Json.str c.Name) :: ("params", kp.toJson)
             :: challengeEnvelope c.Challenge)) := by
  constructor
  · intro c g hkd hg
    rw [Command.marshalJSON]
    simp only [hkd, hg, encodeCommandGeneric]
  · intro c kp hn hp
    exact marshal_known c kp hn hp

/-- C5 witness: a command whose name is unknown and whose `Generic` field is
populated marshals to the generic pair itself, and a known `OnOff` command
marshals to the envelope with its payload. -/
theorem C5_marshal_witness :
    Command.marshalJSON
        { emptyCommand with Name := "vendor.newCommand", Generic := some ⟨"vendor.newCommand", [("x", .num 1)], []⟩ }
      = .obj [("command", .str "vendor.newCommand"), ("params", .obj [("x", .num 1)])]
    ∧ Command.marshalJSON
        { emptyCommand with Name := "action.devices.commands.OnOff", OnOff := some ⟨true⟩ }
      = .obj [("command", .str "action.devices.commands.OnOff"),
              ("params", .obj [("on", .bool true)])] := by
  constructor
  · exact C5_command_marshal_selection.1
      { emptyCommand with Name := "vendor.newCommand", Generic := some ⟨"vendor.newCommand", [("x", .num 1)], []⟩ }
      ⟨"vendor.newCommand", [("x", .num 1)], []⟩ rfl rfl
  · exact C5_command_marshal_selection.2
      { emptyCommand with Name := "action.devices.commands.OnOff", OnOff := some ⟨true⟩ }
      (.onOff ⟨true⟩) rfl rfl

/-- C6: the round trip through the codec reproduces a known command's
discriminant and its single populated payload field; an unknown-name command
whose generic fallback carries that discriminant round-trips its raw params
mapping unchanged; and any successful decode populates at most one
well-known payload field. -/
theorem C6_command_roundtrip :
    (∀ (c : Command) (kp : KnownPayload),
       c.Name = kp.wireName → c.getPayload c.Name = some kp →
       ∃ c', Command.unmarshalJSON c.marshalJSON = .ok c'
         ∧ c'.Name = c.Name ∧ c'.getPayload c'.Name = some kp)
    ∧ (∀ (c : Command) (g : CommandGeneric),
       knownDecoder c.Name = none → c.Generic = some g → g.Command = c.Name →
       ∃ c' g', Command.unmarshalJSON c.marshalJSON = .ok c'
         ∧ c'.Name = c.Name ∧ c'.Generic = some g'
         ∧ g'.Command = g.Command ∧ g'.Params = g.Params)
    ∧ (∀ (j : Json) (c : Command),
       Command.unmarshalJSON j = .ok c → c.knownPayloadCount ≤ 1) := by
  refine ⟨?_, ?_, ?_⟩
  · intro c kp hn hp
    obtain ⟨dec, hdec⟩ : ∃ dec, knownDecoder c.Name = some dec := by
      rw [hn]; exact knownDecoder_wireName_isSome kp
    have henc := marshal_known c kp hn hp
    obtain ⟨ch', hch'⟩ := decodeChallenge_challengeEnvelope c.Challenge
    have hcmd' : lookupKV (("command", Json.str c.Name) :: ("params", kp.toJson)
        :: challengeEnvelope c.Challenge) "command" = some (.str c.Name) := by
      rw [lookupKV_cons, if_pos rfl]
    have hch'' : decodeChallengeField (lookupKV (("command", Json.str c.Name)
        :: ("params", kp.toJson) :: challengeEnvelope c.Challenge) "challenge")
        = .ok ch' := by
      rw [lookupKV_cons, if_neg (show ¬ ("command" = "challenge") by decide),
        lookupKV_cons, if_neg (show ¬ ("params" = "challenge") by decide)]
      exact hch'
    have hun := unmarshal_obj_known _ c.Name dec ch' hcmd' hch'' hdec
    have hparams : lookupKV (("command", Json.str c.Name) :: ("params", kp.toJson)
        :: challengeEnvelope c.Challenge) "params" = some kp.toJson := by
      rw [lookupKV_cons, if_neg (show ¬ ("command" = "params") by decide),
        lookupKV_cons, if_pos rfl]
    have hdecenc : dec kp.toJson = .ok kp := decKnown_toJson kp dec (hn ▸ hdec)
    refine ⟨({ emptyCommand with Name := c.Name, Challenge := ch' }).setPayload kp,
      ?_, ?_, ?_⟩
    · rw [henc, hun, hparams]
      rw [show (some kp.toJson).getD Json.null = kp.toJson from rfl, hdecenc, exceptMap_ok]
    · rw [setPayload_Name]
    · rw [setPayload_Name]
      show Command.getPayload _ c.Name = some kp
      rw [hn]
      exact getPayload_setPayload _ kp
  · intro c g hkd hg hgc
    rw [show c.marshalJSON = encodeCommandGeneric g from by
      rw [Command.marshalJSON]; simp only [hkd, hg]]
    rw [encodeCommandGeneric]
    have hcmd' : lookupKV (([("command", Json.str g.Command),
        ("params", Json.obj g.Params)])
        ++ (if g.Challenge.isEmpty then []
            else [("challenge", Json.obj (g.Challenge.map (fun p => (p.1, Json.str p.2))))]))
        "command" = some (.str g.Command) := by
      rw [List.cons_append, lookupKV_cons, if_pos rfl]
    have hkd' : knownDecoder g.Command = none := by rw [hgc]; exact hkd
    by_cases hche : g.Challenge.isEmpty
    · have hch' : decodeChallengeField (lookupKV (([("command", Json.str g.Command),
          ("params", Json.obj g.Params)])
          ++ (if g.Challenge.isEmpty then []
              else [("challenge",
                Json.obj (g.Challenge.map (fun p => (p.1, Json.str p.2))))])) "challenge")
          = .ok none := by
        rw [if_pos hche]
        rfl
      have hun := unmarshal_obj_unknown _ g.Command none hcmd' hch' hkd'
      rw [hun]
      have hgen : decodeCommandGeneric (.obj (([("command", Json.str g.Command),
          ("params", Json.obj g.Params)])
          ++ (if g.Challenge.isEmpty then []
              else [("challenge",
                Json.obj (g.Challenge.map (fun p => (p.1, Json.str p.2))))])))
          = .ok ⟨g.Command, g.Params, []⟩ := by
        rw [if_pos hche]
        rfl
      rw [hgen, exceptMap_ok]
      exact ⟨_, ⟨g.Command, g.Params, []⟩, rfl, hgc, rfl, rfl, rfl⟩
    · have hch' : decodeChallengeField (lookupKV (([("command", Json.str g.Command),
          ("params", Json.obj g.Params)])
          ++ (if g.Challenge.isEmpty then []
              else [("challenge",
                Json.obj (g.Challenge.map (fun p => (p.1, Json.str p.2))))])) "challenge")
          = .ok (some (g.Challenge.map (fun p => (p.1, Json.str p.2)))) := by
        rw [if_neg hche, List.cons_append, lookupKV_cons,
          if_neg (show ¬ ("command" = "challenge") by decide),
          List.cons_append, lookupKV_cons,
          if_neg (show ¬ ("params" = "challenge") by decide),
          List.nil_append, lookupKV_cons, if_pos rfl]
        rfl
      have hun := unmarshal_obj_unknown _ g.Command _ hcmd' hch' hkd'
      rw [hun]
      have hgen : decodeCommandGeneric (.obj (([("command", Json.str g.Command),
          ("params", Json.obj g.Params)])
          ++ (if g.Challenge.isEmpty then []
              else [("challenge",
                Json.obj (g.Challenge.map (fun p => (p.1, Json.str p.2))))])))
          = .ok ⟨g.Command, g.Params, g.Challenge⟩ := by
        rw [if_neg hche, decodeCommandGeneric]
        rw [show lookupKV ([("command", Json.str g.Command), ("params", Json.obj g.Params)]
            ++ [("challenge", Json.obj (g.Challenge.map (fun p => (p.1, Json.str p.2))))])
            "command" = some (.str g.Command) from by
          rw [List.cons_append, lookupKV_cons, if_pos rfl]]
        rw [show lookupKV ([("command", Json.str g.Command), ("params", Json.obj g.Params)]
            ++ [("challenge", Json.obj (g.Challenge.map (fun p => (p.1, Json.str p.2))))])
            "params" = some (.obj g.Params) from by
          rw [List.cons_append, lookupKV_cons,
            if_neg (show ¬ ("command" = "params") by decide),
            List.cons_append, lookupKV_cons, if_pos rfl]]
        rw [show lookupKV ([("command", Json.str g.Command), ("params", Json.obj g.Params)]
            ++ [("challenge", Json.obj (g.Challenge.map (fun p => (p.1, Json.str p.2))))])
            "challenge"
            = some (.obj (g.Challenge.map (fun p => (p.1, Json.str p.2)))) from by
          rw [List.cons_append, lookupKV_cons,
            if_neg (show ¬ ("command" = "challenge") by decide),
            List.cons_append, lookupKV_cons,
            if_neg (show ¬ ("params" = "challenge") by decide),
            List.nil_append, lookupKV_cons, if_pos rfl]]
        simp only [decodeStringField, decodeMapField, exceptBind_ok,
          decodeStrMap_roundtrip]
      rw [hgen, exceptMap_ok]
      exact ⟨_, ⟨g.Command, g.Params, g.Challenge⟩, rfl, hgc, rfl, rfl, rfl⟩
  · intro j c h
    cases j with
    | null =>
      injection h with h'
      rw [← h']
      decide
    | obj l =>
      rw [Command.unmarshalJSON] at h
      cases hcmd : decodeStringField (lookupKV l "command") with
      | error e =>
        cases e
        simp only [hcmd, exceptBind_err] at h
        exact Except.noConfusion h
      | ok name =>
        cases hch : decodeChallengeField (lookupKV l "challenge") with
        | error e =>
          cases e
          simp only [hcmd, hch, exceptBind_ok, exceptBind_err] at h
          exact Except.noConfusion h
        | ok ch =>
          cases hkd : knownDecoder name with
          | some dec =>
            cases hres : dec ((lookupKV l "params").getD .null) with
            | error e =>
              cases e
              simp only [hcmd, hch, hkd, hres, exceptBind_ok, exceptBind_err] at h
              exact Except.noConfusion h
            | ok kp =>
              simp only [hcmd, hch, hkd, hres, exceptBind_ok] at h
              injection h with h'
              rw [← h', knownPayloadCount_setPayload_base]
          | none =>
            cases hg : decodeCommandGeneric (.obj l) with
            | error e =>
              cases e
              simp only [hcmd, hch, hkd, hg, exceptBind_ok, exceptBind_err] at h
              exact Except.noConfusion h
            | ok g =>
              simp only [hcmd, hch, hkd, hg, exceptBind_ok] at h
              injection h with h'
              rw [← h']
              exact Nat.zero_le 1
    | bool b => exact Except.noConfusion h
    | num q => exact Except.noConfusion h
    | str s => exact Except.noConfusion h
    | arr xs => exact Except.noConfusion h

/-- C6 witness: a concrete known `OnOff` command and a concrete
unknown-name command both round-trip. -/
theorem C6_roundtrip_witness :
    (∃ c', Command.unmarshalJSON
        (Command.marshalJSON { emptyCommand with Name := "action.devices.commands.OnOff", OnOff := some ⟨true⟩ }) = .ok c'
      ∧ c'.Name = "action.devices.commands.OnOff"
      ∧ c'.getPayload c'.Name = some (.onOff ⟨true⟩))
    ∧ ∃ c' g', Command.unmarshalJSON
        (Command.marshalJSON { emptyCommand with Name := "vendor.newCommand", Generic := some ⟨"vendor.newCommand", [("x", .num 1)], []⟩ }) = .ok c'
      ∧ c'.Name = "vendor.newCommand" ∧ c'.Generic = some g'
      ∧ g'.Command = "vendor.newCommand" ∧ g'.Params = [("x", .num 1)] := by
  constructor
  · obtain ⟨c', h1, h2, h3⟩ := C6_command_roundtrip.1
      { emptyCommand with Name := "action.devices.commands.OnOff", OnOff := some ⟨true⟩ }
      (.onOff ⟨true⟩) rfl rfl
    exact ⟨c', h1, h2, h3⟩
  · obtain ⟨c', g', h1, h2, h3, h4, h5⟩ := C6_command_roundtrip.2.1
      { emptyCommand with Name := "vendor.newCommand", Generic := some ⟨"vendor.newCommand", [("x", .num 1)], []⟩ }
      ⟨"vendor.newCommand", [("x", .num 1)], []⟩ rfl rfl rfl
    exact ⟨c', g', h1, h2, h3, h4, h5⟩

/-! ### Fulfillment dispatcher lemmas (claims C1, C2, C3) -/

theorem string_length_lt_one_iff (s : String) : s.length < 1 ↔ s = "" := by
  constructor
  · intro h
    cases s with
    | mk cs =>
      cases cs with
      | nil => rfl
      | cons c cs' => simp [String.length] at h
  · intro h
    subst h
    decide

/-- C1 (amended): for every EXECUTE request that passes validation and whose
provider call succeeds, provided the provider's updated state map is non-nil
(or no device updated, so the map is never written), the handler answers 200
with the three-bucket command list: the SUCCESS entry exists iff some device
updated (carrying those IDs and the shared updated state with `online: true`
forced in), the OFFLINE entry exists iff some device is offline, and there
is one ERROR entry per distinct failure reason, carrying that reason as
errorCode and that group's IDs; but when the provider returns devices in the
updated bucket together with a nil state map, the program panics at the
`States["online"] = true` write instead of answering 200. -/
theorem C1_execute_response_assembly :
    ∀ (validate : AccessTokenValidator) (p : Provider) (r : HttpRequest)
      (freq : FulfillmentRequest) (input : FulfillmentInput) (uid : String)
      (er : ExecuteResponse),
      strContains r.contentType "application/json" = true →
      r.authHeader ≠ "" →
      (stringsSplit r.authHeader ' ').length = 2 →
      strToLower ((stringsSplit r.authHeader ' ').headD "") = "bearer" →
      validate ((stringsSplit r.authHeader ' ').getD 1 "") = .ok uid →
      uid ≠ "" →
      r.body = some freq →
      freq.Inputs = [input] →
      input.Intent = "action.devices.EXECUTE" →
      p.execute (ExecuteRequest.mk uid ((input.Execute.getD ⟨[]⟩).Commands.map (fun g =>
        CommandArg.mk (g.Devices.map (fun d => DeviceArg.mk d.ID d.CustomData))
          g.Execution))) = .ok er →
      (er.UpdatedStateNil = false ∨ er.UpdatedDevices.isEmpty = true →
        GoogleFulfillmentHandlerRun validate p r
          = .resp ⟨200, true, .executeBody freq.RequestID (assembleExecuteCommands er)⟩)
        ∧ (er.UpdatedStateNil = true → er.UpdatedDevices.isEmpty = false →
            GoogleFulfillmentHandlerRun validate p r = .panics)
        ∧ ((assembleExecuteCommands er).filter (fun e => e.Status = "SUCCESS")
            = if er.UpdatedDevices.isEmpty then []
              else [{ IDs := er.UpdatedDevices, Status := "SUCCESS", ErrorCode := "",
                      States := insertKV er.UpdatedState.State "online" (.bool true) }])
        ∧ ((assembleExecuteCommands er).filter (fun e => e.Status = "OFFLINE")
            = if er.OfflineDevices.isEmpty then []
              else [{ IDs := er.OfflineDevices, Status := "OFFLINE", ErrorCode := "",
                      States := [] }])
        ∧ ((assembleExecuteCommands er).filter (fun e => e.Status = "ERROR")
            = er.FailedDevices.map (fun q =>
                { IDs := q.2, Status := "ERROR", ErrorCode := q.1, States := [] }))
        ∧ lookupKV (insertKV er.UpdatedState.State "online" (.bool true)) "online"
            = some (.bool true) := by
  intro validate p r freq input uid er hct hah hb hlow hval huid hbody hinp hint hprov
  have hlen : ¬ (r.authHeader.length < 1) := by
    rw [string_length_lt_one_iff]; exact hah
  have hbearer : ¬ ((stringsSplit r.authHeader ' ').length ≠ 2
      ∨ strToLower ((stringsSplit r.authHeader ' ').headD "") ≠ "bearer") := by
    push_neg
    exact ⟨hb, hlow⟩
  have huidlen : ¬ (uid.length < 1) := by
    rw [string_length_lt_one_iff]; exact huid
  have hlow' : strToLower ((stringsSplit r.authHeader ' ').head?.getD "") = "bearer" := by
    simpa using hlow
  have hval' : validate (stringsSplit r.authHeader ' ')[1] = .ok uid := by
    simpa [hb] using hval
  refine ⟨?_, ?_, ?_, ?_, ?_, ?_⟩
  · intro hcase
    rcases hcase with hnil | hemp
    · simp [GoogleFulfillmentHandlerRun, hct, hlen, hb, hlow', hval', huidlen, hbody,
        hinp, hint, hprov, hnil]
    · simp [GoogleFulfillmentHandlerRun, hct, hlen, hb, hlow', hval', huidlen, hbody,
        hinp, hint, hprov, hemp]
  · intro hnil hne
    simp [GoogleFulfillmentHandlerRun, hct, hlen, hb, hlow', hval', huidlen, hbody,
      hinp, hint, hprov, hnil, hne]
  · rw [assembleExecuteCommands, List.filter_append, List.filter_append]
    have hB : (if er.OfflineDevices.isEmpty then ([] : List ExecuteRespPayload)
        else [{ IDs := er.OfflineDevices, Status := "OFFLINE", ErrorCode := "",
                States := [] }]).filter (fun e => e.Status = "SUCCESS") = [] := by
      by_cases h : er.OfflineDevices.isEmpty <;> simp [h]
    have hC : (er.FailedDevices.map (fun q =>
        ({ IDs := q.2, Status := "ERROR", ErrorCode := q.1, States := [] }
          : ExecuteRespPayload))).filter (fun e => e.Status = "SUCCESS") = [] := by
      rw [List.filter_eq_nil_iff]
      intro e he
      obtain ⟨q, _, hq⟩ := List.mem_map.mp he
      rw [← hq]
      simp
    rw [hB, hC]
    by_cases h : er.UpdatedDevices.isEmpty <;> simp [h]
  · rw [assembleExecuteCommands, List.filter_append, List.filter_append]
    have hA : (if er.UpdatedDevices.isEmpty then ([] : List ExecuteRespPayload)
        else [{ IDs := er.UpdatedDevices, Status := "SUCCESS", ErrorCode := "",
                States := insertKV er.UpdatedState.State "online" (.bool true) }]).filter
          (fun e => e.Status = "OFFLINE") = [] := by
      by_cases h : er.UpdatedDevices.isEmpty <;> simp [h]
    have hC : (er.FailedDevices.map (fun q =>
        ({ IDs := q.2, Status := "ERROR", ErrorCode := q.1, States := [] }
          : ExecuteRespPayload))).filter (fun e => e.Status = "OFFLINE") = [] := by
      rw [List.filter_eq_nil_iff]
      intro e he
      obtain ⟨q, _, hq⟩ := List.mem_map.mp he
      rw [← hq]
      simp
    rw [hA, hC]
    by_cases h : er.OfflineDevices.isEmpty <;> simp [h]
  · rw [assembleExecuteCommands, List.filter_append, List.filter_append]
    have hA : (if er.UpdatedDevices.isEmpty then ([] : List ExecuteRespPayload)
        else [{ IDs := er.UpdatedDevices, Status := "SUCCESS", ErrorCode := "",
                States := insertKV er.UpdatedState.State "online" (.bool true) }]).filter
          (fun e => e.Status = "ERROR") = [] := by
      by_cases h : er.UpdatedDevices.isEmpty <;> simp [h]
    have hB : (if er.OfflineDevices.isEmpty then ([] : List ExecuteRespPayload)
        else [{ IDs := er.OfflineDevices, Status := "OFFLINE", ErrorCode := "",
                States := [] }]).filter (fun e => e.Status = "ERROR") = [] := by
      by_cases h : er.OfflineDevices.isEmpty <;> simp [h]
    have hC : (er.FailedDevices.map (fun q =>
        ({ IDs := q.2, Status := "ERROR", ErrorCode := q.1, States := [] }
          : ExecuteRespPayload))).filter (fun e => e.Status = "ERROR")
        = er.FailedDevices.map (fun q =>
            { IDs := q.2, Status := "ERROR", ErrorCode := q.1, States := [] }) := by
      rw [List.filter_eq_self]
      intro e he
      obtain ⟨q, _, hq⟩ := List.mem_map.mp he
      rw [← hq]
      simp
    rw [hA, hB, hC, List.nil_append, List.nil_append]
  · exact lookupKV_insertKV_self _ _ _

/-- C1 witness: the concrete EXECUTE scenario of the repository's handler
test (one updated device with a `NewDeviceState`-built — hence non-nil —
state map, one failed device). -/
theorem C1_execute_witness :
    GoogleFulfillmentHandlerRun sampleValidator sampleProvider
        (sampleHttpRequest "action.devices.EXECUTE" none
          (some ⟨[⟨[⟨"123", []⟩, ⟨"456", []⟩], []⟩]⟩))
      = .resp ⟨200, true, .executeBody "rid" (assembleExecuteCommands sampleExecuteResponse)⟩
    ∧ (assembleExecuteCommands sampleExecuteResponse).filter (fun e => e.Status = "ERROR")
      = [{ IDs := ["456"], Status := "ERROR", ErrorCode := "deviceTurnedOff",
           States := [] }] := by
  have h := C1_execute_response_assembly sampleValidator sampleProvider
    (sampleHttpRequest "action.devices.EXECUTE" none
      (some ⟨[⟨[⟨"123", []⟩, ⟨"456", []⟩], []⟩]⟩))
    { RequestID := "rid",
      Inputs := [{ Intent := "action.devices.EXECUTE", Query := none,
                   Execute := some ⟨[⟨[⟨"123", []⟩, ⟨"456", []⟩], []⟩]⟩ }] }
    { Intent := "action.devices.EXECUTE", Query := none,
      Execute := some ⟨[⟨[⟨"123", []⟩, ⟨"456", []⟩], []⟩]⟩ }
    "user1" sampleExecuteResponse
    (by decide) (by decide) (by decide) (by decide) rfl (by decide) rfl rfl rfl rfl
  exact ⟨h.1 (Or.inl rfl), h.2.2.2.2.1⟩

/-- C1 counterexample: a provider whose EXECUTE call succeeds with a device
in the updated bucket but a zero-value updated state (nil `State` map, as
nothing obliges a provider to use `NewDeviceState`): the handler does not
answer 200 — the program panics at `commandSuccessResp.States["online"] =
true` (handler.go:192, assignment to entry in nil map), refuting the claim
that every EXECUTE request with a successful provider call yields HTTP 200. -/
theorem C1_nil_state_panic_counterexample :
    samplePanicProvider.execute (ExecuteRequest.mk "user1"
        [CommandArg.mk [DeviceArg.mk "123" []] []]) = .ok samplePanicExecuteResponse
    ∧ GoogleFulfillmentHandlerRun sampleValidator samplePanicProvider
        (sampleHttpRequest "action.devices.EXECUTE" none
          (some ⟨[⟨[⟨"123", []⟩], []⟩]⟩))
      = .panics := by
  exact ⟨rfl, rfl⟩

/-- C2 (amended): for every QUERY request that passes validation and whose
provider call succeeds, the handler answers 200 with every returned state's
`Status` field forced to "SUCCESS", while the `Online` flag and the
trait-state map are passed through from the provider unchanged (the code
does not force `online: true` here). -/
theorem C2_query_status_forced :
    ∀ (validate : AccessTokenValidator) (p : Provider) (r : HttpRequest)
      (freq : FulfillmentRequest) (input : FulfillmentInput) (uid : String)
      (qresp : QueryResponse),
      strContains r.contentType "application/json" = true →
      r.authHeader ≠ "" →
      (stringsSplit r.authHeader ' ').length = 2 →
      strToLower ((stringsSplit r.authHeader ' ').headD "") = "bearer" →
      validate ((stringsSplit r.authHeader ' ').getD 1 "") = .ok uid →
      uid ≠ "" →
      r.body = some freq →
      freq.Inputs = [input] →
      input.Intent = "action.devices.QUERY" →
      p.query (QueryRequest.mk uid ((input.Query.getD ⟨[]⟩).Devices.map (fun d =>
        DeviceArg.mk d.ID d.CustomData))) = .ok qresp →
      GoogleFulfillmentHandler validate p r
          = ⟨200, true, .queryBody freq.RequestID (qresp.States.map (fun q =>
              (q.1, { q.2 with Status := "SUCCESS" })))⟩
        ∧ (qresp.States.map (fun q => (q.1, { q.2 with Status := "SUCCESS" }))).map
            (fun q => (q.1, q.2.Status, q.2.Online, q.2.State))
          = qresp.States.map (fun q => (q.1, "SUCCESS", q.2.Online, q.2.State)) := by
  intro validate p r freq input uid qresp hct hah hb hlow hval huid hbody hinp hint hq
  have hlen : ¬ (r.authHeader.length < 1) := by
    rw [string_length_lt_one_iff]; exact hah
  have huidlen : ¬ (uid.length < 1) := by
    rw [string_length_lt_one_iff]; exact huid
  have hlow' : strToLower ((stringsSplit r.authHeader ' ').head?.getD "") = "bearer" := by
    simpa using hlow
  have hval' : validate (stringsSplit r.authHeader ' ')[1] = .ok uid := by
    simpa [hb] using hval
  refine ⟨?_, ?_⟩
  · simp [GoogleFulfillmentHandler, hct, hlen, hb, hlow', hval', huidlen, hbody, hinp,
      hint, hq]
  · simp [List.map_map]

/-- C2 witness: the amended theorem applied at the repository test's QUERY
scenario (provider returns the state for device 123). -/
theorem C2_query_witness :
    GoogleFulfillmentHandler sampleValidator sampleProvider
        (sampleHttpRequest "action.devices.QUERY" (some ⟨[⟨"123", []⟩]⟩) none)
      = ⟨200, true, .queryBody "rid"
          [("123", { sampleDeviceStateOffline with Status := "SUCCESS" })]⟩ := by
  have h := C2_query_status_forced sampleValidator sampleProvider
    (sampleHttpRequest "action.devices.QUERY" (some ⟨[⟨"123", []⟩]⟩) none)
    { RequestID := "rid",
      Inputs := [{ Intent := "action.devices.QUERY",
                   Query := some ⟨[⟨"123", []⟩]⟩, Execute := none }] }
    { Intent := "action.devices.QUERY", Query := some ⟨[⟨"123", []⟩]⟩, Execute := none }
    "user1" { States := [("123", sampleDeviceStateOffline)] }
    (by decide) (by decide) (by decide) (by decide) rfl (by decide) rfl rfl rfl rfl
  exact h.1

/-- C2 counterexample: the provider reports device 123 with `Online = false`;
the handler's 200 QUERY response carries that state with `Status` forced to
"SUCCESS" but `Online` still `false` — the claim that the dispatcher forces
`online: true` on QUERY responses is refuted. -/
theorem C2_online_not_forced_counterexample :
    GoogleFulfillmentHandler sampleValidator sampleProvider
        (sampleHttpRequest "action.devices.QUERY" (some ⟨[⟨"123", []⟩]⟩) none)
      = ⟨200, true, .queryBody "rid"
          [("123", { Online := false, Status := "SUCCESS", State := [] })]⟩
    ∧ sampleDeviceStateOffline.Online = false := by
  exact ⟨rfl, rfl⟩

/-- C3 (amended): the handler terminates with exactly the status of the
first failing check, in source order: non-JSON content type → 415; missing
Authorization header → 401; header not `Bearer <token>` → 401; token
validation error or empty user identifier → 401; missing/malformed JSON
body → 400; input count different from one → 400; unrecognized intent →
400; provider error on SYNC/QUERY/EXECUTE → 503; successful SYNC and QUERY,
and successful EXECUTE whose updated state map is non-nil → 200 with the
`Content-Type: application/json` header set; successful DISCONNECT → 200
with body `{}` but WITHOUT the handler setting the
`Content-Type: application/json` header (the code writes the body without
touching the header); and a successful EXECUTE whose provider response has
devices in the updated bucket with a nil updated state map does not produce
a response at all — the program panics at the `States["online"] = true`
write. -/
theorem C3_http_status_chain :
    ∀ (validate : AccessTokenValidator) (p : Provider) (r : HttpRequest),
      (strContains r.contentType "application/json" = false →
        GoogleFulfillmentHandlerRun validate p r = .resp ⟨415, false, .text "Request not JSON"⟩)
    ∧ (strContains r.contentType "application/json" = true →
        r.authHeader = "" →
        GoogleFulfillmentHandlerRun validate p r = .resp ⟨401, false, .text "Access Token Required"⟩)
    ∧ (strContains r.contentType "application/json" = true →
        r.authHeader ≠ "" →
        ((stringsSplit r.authHeader ' ').length ≠ 2
          ∨ strToLower ((stringsSplit r.authHeader ' ').headD "") ≠ "bearer") →
        GoogleFulfillmentHandlerRun validate p r
          = .resp ⟨401, false, .text "Access Token Must Be Bearer"⟩)
    ∧ (strContains r.contentType "application/json" = true →
        r.authHeader ≠ "" →
        (stringsSplit r.authHeader ' ').length = 2 →
        strToLower ((stringsSplit r.authHeader ' ').headD "") = "bearer" →
        validate ((stringsSplit r.authHeader ' ').getD 1 "") = .error () →
        GoogleFulfillmentHandlerRun validate p r = .resp ⟨401, false, .text "Access Token Invalid"⟩)
    ∧ (strContains r.contentType "application/json" = true →
        r.authHeader ≠ "" →
        (stringsSplit r.authHeader ' ').length = 2 →
        strToLower ((stringsSplit r.authHeader ' ').headD "") = "bearer" →
        validate ((stringsSplit r.authHeader ' ').getD 1 "") = .ok "" →
        GoogleFulfillmentHandlerRun validate p r = .resp ⟨401, false, .text "Access Token Invalid"⟩)
    ∧ (∀ (uid : String),
        strContains r.contentType "application/json" = true →
        r.authHeader ≠ "" →
        (stringsSplit r.authHeader ' ').length = 2 →
        strToLower ((stringsSplit r.authHeader ' ').headD "") = "bearer" →
        validate ((stringsSplit r.authHeader ' ').getD 1 "") = .ok uid →
        uid ≠ "" →
        r.body = none →
        GoogleFulfillmentHandlerRun validate p r
          = .resp ⟨400, false, .text "JSON Deserialization Failed"⟩)
    ∧ (∀ (uid : String) (freq : FulfillmentRequest),
        strContains r.contentType "application/json" = true →
        r.authHeader ≠ "" →
        (stringsSplit r.authHeader ' ').length = 2 →
        strToLower ((stringsSplit r.authHeader ' ').headD "") = "bearer" →
        validate ((stringsSplit r.authHeader ' ').getD 1 "") = .ok uid →
        uid ≠ "" →
        r.body = some freq →
        freq.Inputs.length ≠ 1 →
        GoogleFulfillmentHandlerRun validate p r
          = .resp ⟨400, false, .text "Unsupported number of inputs"⟩)
    ∧ (∀ (uid : String) (freq : FulfillmentRequest) (input : FulfillmentInput),
        strContains r.contentType "application/json" = true →
        r.authHeader ≠ "" →
        (stringsSplit r.authHeader ' ').length = 2 →
        strToLower ((stringsSplit r.authHeader ' ').headD "") = "bearer" →
        validate ((stringsSplit r.authHeader ' ').getD 1 "") = .ok uid →
        uid ≠ "" →
        r.body = some freq →
        freq.Inputs = [input] →
        input.Intent ≠ "action.devices.SYNC" →
        input.Intent ≠ "action.devices.QUERY" →
        input.Intent ≠ "action.devices.EXECUTE" →
        input.Intent ≠ "action.devices.DISCONNECT" →
        GoogleFulfillmentHandlerRun validate p r
          = .resp ⟨400, false, .text "Unsupported intent name specified"⟩)
    ∧ (∀ (uid : String) (freq : FulfillmentRequest) (input : FulfillmentInput),
        strContains r.contentType "application/json" = true →
        r.authHeader ≠ "" →
        (stringsSplit r.authHeader ' ').length = 2 →
        strToLower ((stringsSplit r.authHeader ' ').headD "") = "bearer" →
        validate ((stringsSplit r.authHeader ' ').getD 1 "") = .ok uid →
        uid ≠ "" →
        r.body = some freq →
        freq.Inputs = [input] →
        input.Intent = "action.devices.SYNC" →
        p.sync uid = .error () →
        GoogleFulfillmentHandlerRun validate p r = .resp ⟨503, false, .text "Fail to sync"⟩)
    ∧ (∀ (uid : String) (freq : FulfillmentRequest) (input : FulfillmentInput),
        strContains r.contentType "application/json" = true →
        r.authHeader ≠ "" →
        (stringsSplit r.authHeader ' ').length = 2 →
        strToLower ((stringsSplit r.authHeader ' ').headD "") = "bearer" →
        validate ((stringsSplit r.authHeader ' ').getD 1 "") = .ok uid →
        uid ≠ "" →
        r.body = some freq →
        freq.Inputs = [input] →
        input.Intent = "action.devices.QUERY" →
        p.query (QueryRequest.mk uid ((input.Query.getD ⟨[]⟩).Devices.map (fun d =>
          DeviceArg.mk d.ID d.CustomData))) = .error () →
        GoogleFulfillmentHandlerRun validate p r = .resp ⟨503, false, .text "Fail to query"⟩)
    ∧ (∀ (uid : String) (freq : FulfillmentRequest) (input : FulfillmentInput),
        strContains r.contentType "application/json" = true →
        r.authHeader ≠ "" →
        (stringsSplit r.authHeader ' ').length = 2 →
        strToLower ((stringsSplit r.authHeader ' ').headD "") = "bearer" →
        validate ((stringsSplit r.authHeader ' ').getD 1 "") = .ok uid →
        uid ≠ "" →
        r.body = some freq →
        freq.Inputs = [input] →
        input.Intent = "action.devices.EXECUTE" →
        p.execute (ExecuteRequest.mk uid ((input.Execute.getD ⟨[]⟩).Commands.map (fun g =>
          CommandArg.mk (g.Devices.map (fun d => DeviceArg.mk d.ID d.CustomData))
            g.Execution))) = .error () →
        GoogleFulfillmentHandlerRun validate p r = .resp ⟨503, false, .text "Fail to execute"⟩)
    ∧ (∀ (uid : String) (freq : FulfillmentRequest) (input : FulfillmentInput)
        (sresp : SyncResponse),
        strContains r.contentType "application/json" = true →
        r.authHeader ≠ "" →
        (stringsSplit r.authHeader ' ').length = 2 →
        strToLower ((stringsSplit r.authHeader ' ').headD "") = "bearer" →
        validate ((stringsSplit r.authHeader ' ').getD 1 "") = .ok uid →
        uid ≠ "" →
        r.body = some freq →
        freq.Inputs = [input] →
        input.Intent = "action.devices.SYNC" →
        p.sync uid = .ok sresp →
        GoogleFulfillmentHandlerRun validate p r
          = .resp ⟨200, true, .syncBody freq.RequestID uid sresp.Devices⟩)
    ∧ (∀ (uid : String) (freq : FulfillmentRequest) (input : FulfillmentInput),
        strContains r.contentType "application/json" = true →
        r.authHeader ≠ "" →
        (stringsSplit r.authHeader ' ').length = 2 →
        strToLower ((stringsSplit r.authHeader ' ').headD "") = "bearer" →
        validate ((stringsSplit r.authHeader ' ').getD 1 "") = .ok uid →
        uid ≠ "" →
        r.body = some freq →
        freq.Inputs = [input] →
        input.Intent = "action.devices.DISCONNECT" →
        GoogleFulfillmentHandlerRun validate p r = .resp ⟨200, false, .text "\x7b\x7d"⟩)
    ∧ (∀ (uid : String) (freq : FulfillmentRequest) (input : FulfillmentInput)
        (qresp : QueryResponse),
        strContains r.contentType "application/json" = true →
        r.authHeader ≠ "" →
        (stringsSplit r.authHeader ' ').length = 2 →
        strToLower ((stringsSplit r.authHeader ' ').headD "") = "bearer" →
        validate ((stringsSplit r.authHeader ' ').getD 1 "") = .ok uid →
        uid ≠ "" →
        r.body = some freq →
        freq.Inputs = [input] →
        input.Intent = "action.devices.QUERY" →
        p.query (QueryRequest.mk uid ((input.Query.getD ⟨[]⟩).Devices.map (fun d =>
          DeviceArg.mk d.ID d.CustomData))) = .ok qresp →
        GoogleFulfillmentHandlerRun validate p r
          = .resp ⟨200, true, .queryBody freq.RequestID (qresp.States.map (fun q =>
              (q.1, { q.2 with Status := "SUCCESS" })))⟩)
    ∧ (∀ (uid : String) (freq : FulfillmentRequest) (input : FulfillmentInput)
        (er : ExecuteResponse),
        strContains r.contentType "application/json" = true →
        r.authHeader ≠ "" →
        (stringsSplit r.authHeader ' ').length = 2 →
        strToLower ((stringsSplit r.authHeader ' ').headD "") = "bearer" →
        validate ((stringsSplit r.authHeader ' ').getD 1 "") = .ok uid →
        uid ≠ "" →
        r.body = some freq →
        freq.Inputs = [input] →
        input.Intent = "action.devices.EXECUTE" →
        p.execute (ExecuteRequest.mk uid ((input.Execute.getD ⟨[]⟩).Commands.map (fun g =>
          CommandArg.mk (g.Devices.map (fun d => DeviceArg.mk d.ID d.CustomData))
            g.Execution))) = .ok er →
        er.UpdatedStateNil = false →
        GoogleFulfillmentHandlerRun validate p r
          = .resp ⟨200, true, .executeBody freq.RequestID (assembleExecuteCommands er)⟩)
    ∧ (∀ (uid : String) (freq : FulfillmentRequest) (input : FulfillmentInput)
        (er : ExecuteResponse),
        strContains r.contentType "application/json" = true →
        r.authHeader ≠ "" →
        (stringsSplit r.authHeader ' ').length = 2 →
        strToLower ((stringsSplit r.authHeader ' ').headD "") = "bearer" →
        validate ((stringsSplit r.authHeader ' ').getD 1 "") = .ok uid →
        uid ≠ "" →
        r.body = some freq →
        freq.Inputs = [input] →
        input.Intent = "action.devices.EXECUTE" →
        p.execute (ExecuteRequest.mk uid ((input.Execute.getD ⟨[]⟩).Commands.map (fun g =>
          CommandArg.mk (g.Devices.map (fun d => DeviceArg.mk d.ID d.CustomData))
            g.Execution))) = .ok er →
        er.UpdatedStateNil = true →
        er.UpdatedDevices.isEmpty = false →
        GoogleFulfillmentHandlerRun validate p r = .panics) := by
  intro validate p r
  refine ⟨?_, ?_, ?_, ?_, ?_, ?_, ?_, ?_, ?_, ?_, ?_, ?_, ?_, ?_, ?_, ?_⟩
  · intro h1
    simp [GoogleFulfillmentHandlerRun, h1]
  · intro hct hah
    simp [GoogleFulfillmentHandlerRun, hct, hah]
  · intro hct hah hbad
    have hlen : ¬ (r.authHeader.length < 1) := by
      rw [string_length_lt_one_iff]; exact hah
    have hbad' := hbad
    simp only [ne_eq, List.headD_eq_head?_getD] at hbad'
    simp [GoogleFulfillmentHandlerRun, hct, hlen, hbad']
  · intro hct hah hb hlow hverr
    have hlen : ¬ (r.authHeader.length < 1) := by
      rw [string_length_lt_one_iff]; exact hah
    have hlow' : strToLower ((stringsSplit r.authHeader ' ').head?.getD "") = "bearer" := by
      simpa using hlow
    have hverr' : validate (stringsSplit r.authHeader ' ')[1] = .error () := by
      simpa [hb] using hverr
    simp [GoogleFulfillmentHandlerRun, hct, hlen, hb, hlow', hverr']
  · intro hct hah hb hlow hval
    have hlen : ¬ (r.authHeader.length < 1) := by
      rw [string_length_lt_one_iff]; exact hah
    have hlow' : strToLower ((stringsSplit r.authHeader ' ').head?.getD "") = "bearer" := by
      simpa using hlow
    have hval' : validate (stringsSplit r.authHeader ' ')[1] = .ok "" := by
      simpa [hb] using hval
    simp [GoogleFulfillmentHandlerRun, hct, hlen, hb, hlow', hval']
  · intro uid hct hah hb hlow hval huid hbody
    have hlen : ¬ (r.authHeader.length < 1) := by
      rw [string_length_lt_one_iff]; exact hah
    have huidlen : ¬ (uid.length < 1) := by
      rw [string_length_lt_one_iff]; exact huid
    have hlow' : strToLower ((stringsSplit r.authHeader ' ').head?.getD "") = "bearer" := by
      simpa using hlow
    have hval' : validate (stringsSplit r.authHeader ' ')[1] = .ok uid := by
      simpa [hb] using hval
    simp [GoogleFulfillmentHandlerRun, hct, hlen, hb, hlow', hval', huidlen, hbody]
  · intro uid freq hct hah hb hlow hval huid hbody hcount
    have hlen : ¬ (r.authHeader.length < 1) := by
      rw [string_length_lt_one_iff]; exact hah
    have huidlen : ¬ (uid.length < 1) := by
      rw [string_length_lt_one_iff]; exact huid
    have hlow' : strToLower ((stringsSplit r.authHeader ' ').head?.getD "") = "bearer" := by
      simpa using hlow
    have hval' : validate (stringsSplit r.authHeader ' ')[1] = .ok uid := by
      simpa [hb] using hval
    cases hI : freq.Inputs with
    | nil =>
      simp [GoogleFulfillmentHandlerRun, hct, hlen, hb, hlow', hval', huidlen, hbody, hI]
    | cons a t =>
      cases t with
      | nil => rw [hI] at hcount; exact absurd rfl hcount
      | cons b t2 =>
        simp [GoogleFulfillmentHandlerRun, hct, hlen, hb, hlow', hval', huidlen, hbody, hI]
  · intro uid freq input hct hah hb hlow hval huid hbody hinp hi1 hi2 hi3 hi4
    have hlen : ¬ (r.authHeader.length < 1) := by
      rw [string_length_lt_one_iff]; exact hah
    have huidlen : ¬ (uid.length < 1) := by
      rw [string_length_lt_one_iff]; exact huid
    have hlow' : strToLower ((stringsSplit r.authHeader ' ').head?.getD "") = "bearer" := by
      simpa using hlow
    have hval' : validate (stringsSplit r.authHeader ' ')[1] = .ok uid := by
      simpa [hb] using hval
    simp [GoogleFulfillmentHandlerRun, hct, hlen, hb, hlow', hval', huidlen, hbody, hinp,
      hi1, hi2, hi3, hi4]
  · intro uid freq input hct hah hb hlow hval huid hbody hinp hint hserr
    have hlen : ¬ (r.authHeader.length < 1) := by
      rw [string_length_lt_one_iff]; exact hah
    have huidlen : ¬ (uid.length < 1) := by
      rw [string_length_lt_one_iff]; exact huid
    have hlow' : strToLower ((stringsSplit r.authHeader ' ').head?.getD "") = "bearer" := by
      simpa using hlow
    have hval' : validate (stringsSplit r.authHeader ' ')[1] = .ok uid := by
      simpa [hb] using hval
    simp [GoogleFulfillmentHandlerRun, hct, hlen, hb, hlow', hval', huidlen, hbody, hinp,
      hint, hserr]
  · intro uid freq input hct hah hb hlow hval huid hbody hinp hint hqerr
    have hlen : ¬ (r.authHeader.length < 1) := by
      rw [string_length_lt_one_iff]; exact hah
    have huidlen : ¬ (uid.length < 1) := by
      rw [string_length_lt_one_iff]; exact huid
    have hlow' : strToLower ((stringsSplit r.authHeader ' ').head?.getD "") = "bearer" := by
      simpa using hlow
    have hval' : validate (stringsSplit r.authHeader ' ')[1] = .ok uid := by
      simpa [hb] using hval
    simp [GoogleFulfillmentHandlerRun, hct, hlen, hb, hlow', hval', huidlen, hbody, hinp,
      hint, hqerr]
  · intro uid freq input hct hah hb hlow hval huid hbody hinp hint hxerr
    have hlen : ¬ (r.authHeader.length < 1) := by
      rw [string_length_lt_one_iff]; exact hah
    have huidlen : ¬ (uid.length < 1) := by
      rw [string_length_lt_one_iff]; exact huid
    have hlow' : strToLower ((stringsSplit r.authHeader ' ').head?.getD "") = "bearer" := by
      simpa using hlow
    have hval' : validate (stringsSplit r.authHeader ' ')[1] = .ok uid := by
      simpa [hb] using hval
    simp [GoogleFulfillmentHandlerRun, hct, hlen, hb, hlow', hval', huidlen, hbody, hinp,
      hint, hxerr]
  · intro uid freq input sresp hct hah hb hlow hval huid hbody hinp hint hsok
    have hlen : ¬ (r.authHeader.length < 1) := by
      rw [string_length_lt_one_iff]; exact hah
    have huidlen : ¬ (uid.length < 1) := by
      rw [string_length_lt_one_iff]; exact huid
    have hlow' : strToLower ((stringsSplit r.authHeader ' ').head?.getD "") = "bearer" := by
      simpa using hlow
    have hval' : validate (stringsSplit r.authHeader ' ')[1] = .ok uid := by
      simpa [hb] using hval
    simp [GoogleFulfillmentHandlerRun, hct, hlen, hb, hlow', hval', huidlen, hbody, hinp,
      hint, hsok]
  · intro uid freq input hct hah hb hlow hval huid hbody hinp hint
    have hlen : ¬ (r.authHeader.length < 1) := by
      rw [string_length_lt_one_iff]; exact hah
    have huidlen : ¬ (uid.length < 1) := by
      rw [string_length_lt_one_iff]; exact huid
    have hlow' : strToLower ((stringsSplit r.authHeader ' ').head?.getD "") = "bearer" := by
      simpa using hlow
    have hval' : validate (stringsSplit r.authHeader ' ')[1] = .ok uid := by
      simpa [hb] using hval
    simp [GoogleFulfillmentHandlerRun, hct, hlen, hb, hlow', hval', huidlen, hbody, hinp,
      hint]
  · intro uid freq input qresp hct hah hb hlow hval huid hbody hinp hint hqok
    have hlen : ¬ (r.authHeader.length < 1) := by
      rw [string_length_lt_one_iff]; exact hah
    have huidlen : ¬ (uid.length < 1) := by
      rw [string_length_lt_one_iff]; exact huid
    have hlow' : strToLower ((stringsSplit r.authHeader ' ').head?.getD "") = "bearer" := by
      simpa using hlow
    have hval' : validate (stringsSplit r.authHeader ' ')[1] = .ok uid := by
      simpa [hb] using hval
    simp [GoogleFulfillmentHandlerRun, hct, hlen, hb, hlow', hval', huidlen, hbody, hinp,
      hint, hqok]
  · intro uid freq input er hct hah hb hlow hval huid hbody hinp hint hxok hnil
    have hlen : ¬ (r.authHeader.length < 1) := by
      rw [string_length_lt_one_iff]; exact hah
    have huidlen : ¬ (uid.length < 1) := by
      rw [string_length_lt_one_iff]; exact huid
    have hlow' : strToLower ((stringsSplit r.authHeader ' ').head?.getD "") = "bearer" := by
      simpa using hlow
    have hval' : validate (stringsSplit r.authHeader ' ')[1] = .ok uid := by
      simpa [hb] using hval
    simp [GoogleFulfillmentHandlerRun, hct, hlen, hb, hlow', hval', huidlen, hbody, hinp,
      hint, hxok, hnil]
  · intro uid freq input er hct hah hb hlow hval huid hbody hinp hint hxok hnil hne
    have hlen : ¬ (r.authHeader.length < 1) := by
      rw [string_length_lt_one_iff]; exact hah
    have huidlen : ¬ (uid.length < 1) := by
      rw [string_length_lt_one_iff]; exact huid
    have hlow' : strToLower ((stringsSplit r.authHeader ' ').head?.getD "") = "bearer" := by
      simpa using hlow
    have hval' : validate (stringsSplit r.authHeader ' ')[1] = .ok uid := by
      simpa [hb] using hval
    simp [GoogleFulfillmentHandlerRun, hct, hlen, hb, hlow', hval', huidlen, hbody, hinp,
      hint, hxok, hnil, hne]

/-- C3 witness: concrete requests exercising the chain — a non-JSON request
is answered 415, a request with no Authorization header is answered 401, an
unknown intent is answered 400, a DISCONNECT is answered 200 with body
`\x7b\x7d` and no JSON Content-Type header, and an EXECUTE whose provider
succeeds with an updated device but a nil state map panics. -/
theorem C3_chain_witness :
    GoogleFulfillmentHandlerRun sampleValidator sampleProvider
        { contentType := "text/plain", authHeader := "", body := none }
      = .resp ⟨415, false, .text "Request not JSON"⟩
    ∧ GoogleFulfillmentHandlerRun sampleValidator sampleProvider
        { contentType := "application/json", authHeader := "", body := none }
      = .resp ⟨401, false, .text "Access Token Required"⟩
    ∧ GoogleFulfillmentHandlerRun sampleValidator sampleProvider
        (sampleHttpRequest "action.devices.FROBNICATE" none none)
      = .resp ⟨400, false, .text "Unsupported intent name specified"⟩
    ∧ GoogleFulfillmentHandlerRun sampleValidator sampleProvider
        (sampleHttpRequest "action.devices.DISCONNECT" none none)
      = .resp ⟨200, false, .text "\x7b\x7d"⟩
    ∧ GoogleFulfillmentHandlerRun sampleValidator samplePanicProvider
        (sampleHttpRequest "action.devices.EXECUTE" none
          (some ⟨[⟨[⟨"123", []⟩], []⟩]⟩))
      = .panics := by
  refine ⟨?_, ?_, ?_, ?_, ?_⟩
  · exact (C3_http_status_chain sampleValidator sampleProvider
      { contentType := "text/plain", authHeader := "", body := none }).1 (by decide)
  · exact (C3_http_status_chain sampleValidator sampleProvider
      { contentType := "application/json", authHeader := "", body := none }).2.1
      (by decide) rfl
  · exact (C3_http_status_chain sampleValidator sampleProvider
      (sampleHttpRequest "action.devices.FROBNICATE" none none)).2.2.2.2.2.2.2.1
      "user1"
      { RequestID := "rid",
        Inputs := [{ Intent := "action.devices.FROBNICATE", Query := none, Execute := none }] }
      { Intent := "action.devices.FROBNICATE", Query := none, Execute := none }
      (by decide) (by decide) (by decide) (by decide) rfl (by decide) rfl rfl
      (by decide) (by decide) (by decide) (by decide)
  · exact (C3_http_status_chain sampleValidator sampleProvider
      (sampleHttpRequest "action.devices.DISCONNECT" none none)).2.2.2.2.2.2.2.2.2.2.2.2.1
      "user1"
      { RequestID := "rid",
        Inputs := [{ Intent := "action.devices.DISCONNECT", Query := none, Execute := none }] }
      { Intent := "action.devices.DISCONNECT", Query := none, Execute := none }
      (by decide) (by decide) (by decide) (by decide) rfl (by decide) rfl rfl rfl
  · exact (C3_http_status_chain sampleValidator samplePanicProvider
      (sampleHttpRequest "action.devices.EXECUTE" none
        (some ⟨[⟨[⟨"123", []⟩], []⟩]⟩))).2.2.2.2.2.2.2.2.2.2.2.2.2.2.2
      "user1"
      { RequestID := "rid",
        Inputs := [{ Intent := "action.devices.EXECUTE", Query := none,
                     Execute := some ⟨[⟨[⟨"123", []⟩], []⟩]⟩ }] }
      { Intent := "action.devices.EXECUTE", Query := none,
        Execute := some ⟨[⟨[⟨"123", []⟩], []⟩]⟩ }
      samplePanicExecuteResponse
      (by decide) (by decide) (by decide) (by decide) rfl (by decide) rfl rfl rfl rfl
      rfl rfl

/-- C3 counterexample: on a successful DISCONNECT the handler answers 200
but does NOT set the `Content-Type: application/json` header (it writes the
`\x7b\x7d` body without touching the header, so the response's
`contentTypeJson` flag is `false`), refuting the claim that every successful
intent including DISCONNECT carries that header. -/
theorem C3_disconnect_no_json_header_counterexample :
    GoogleFulfillmentHandlerRun sampleValidator sampleProvider
        (sampleHttpRequest "action.devices.DISCONNECT" none none)
      = .resp { status := 200, contentTypeJson := false, body := .text "\x7b\x7d" } := by
  rfl

end SmartHome
